import Mathlib

/-!
Verification development for the IIIF 3D Blender plugin.

The Python sources are shallowly embedded:

* `src/modules/utils/coordinates.py` is embedded twice: once over `ℝ`
  (the idealized real-number semantics used for the round-trip claims)
  and once over exact rational data (used inside the importer/exporter
  state machines, where every angle that is ever stored is a rational
  number of degrees scaled by `π/180`).
* `src/modules/utils/json_patterns.py`, `src/modules/utils/color.py`,
  `src/modules/metadata.py`, `src/modules/importer.py` and
  `src/modules/exporter.py` are embedded as state-passing functions in
  a Python-style monad `PyM` combining mutable Blender state with
  exceptions; external capabilities (network fetch, glTF decoding,
  mathutils conversions, the clock) are parameters of the embedding.

JSON documents are modelled by `JVal α`, parameterized by the scalar
type used for JSON numbers (`ℚ` on the import side; `Sc`, rationals
adjoined with the constant `180/π`, on the export side, because the
exporter applies `math.degrees` to raw quaternion components).
-/

/-- Python exception values, one constructor per exception class raised
by the embedded code paths. -/
inductive PyErr where
  | valueError (msg : String)
  | typeError (msg : String)
  | keyError (key : String)
  | attributeError (msg : String)
  | indexError
  | nameError (name : String)
  | urlError (url : String)
  deriving DecidableEq, Repr

/-- Python-style computation: mutable state `σ`, result `β`, and
exceptions that propagate while keeping all state mutations performed
so far (as Python exceptions do). -/
abbrev PyM (σ : Type) (β : Type) : Type := σ → Except PyErr β × σ

instance : Monad (PyM σ) where
  pure x := fun s => (Except.ok x, s)
  bind m f := fun s =>
    match m s with
    | (Except.ok a, s1) => f a s1
    | (Except.error e, s1) => (Except.error e, s1)

/-- Raise a Python exception. -/
def PyM.throw (e : PyErr) : PyM σ β := fun s => (Except.error e, s)

/-- Python try/except catching every exception. -/
def PyM.tryCatch (m : PyM σ β) (h : PyErr → PyM σ β) : PyM σ β := fun s =>
  match m s with
  | (Except.ok a, s1) => (Except.ok a, s1)
  | (Except.error e, s1) => h e s1

def PyM.getS : PyM σ σ := fun s => (Except.ok s, s)

def PyM.setS (s : σ) : PyM σ Unit := fun _ => (Except.ok (), s)

def PyM.modifyS (f : σ → σ) : PyM σ Unit := fun s => (Except.ok (), f s)

def PyM.ofExcept (x : Except PyErr β) : PyM σ β := fun s => (x, s)

/-- Run a computation from an initial state. -/
def PyM.run (m : PyM σ β) (s : σ) : Except PyErr β × σ := m s

/-- Result value of the run, discarding the final state. -/
def PyM.res (m : PyM σ β) (s : σ) : Except PyErr β := (m s).1

/-- Final state of the run. -/
def PyM.fin (m : PyM σ β) (s : σ) : σ := (m s).2

/-- An angle stored in radians whose value is an exact rational number
of degrees: `RadQ.mk d` stands for the real number `d * π / 180`.  This
represents `math.radians` applied to a rational degree value without
leaving the rationals. -/
structure RadQ where
  deg : ℚ
  deriving DecidableEq, Repr

/-- Exact embedding of `math.radians` on rational degree inputs. -/
def radiansQ (d : ℚ) : RadQ := ⟨d⟩

/-- Exact embedding of `math.degrees` on angles of the form `d*π/180`. -/
def degreesQ (r : RadQ) : ℚ := r.deg

/-- Negation of a stored angle (used for Euler component sign flips). -/
def RadQ.neg (r : RadQ) : RadQ := ⟨-r.deg⟩

/-- Scalar field for exporter-side JSON numbers: `Sc.mk a b` stands for
the real number `a + b * (180 / π)`.  The `b` component arises only from
`math.degrees` applied to raw quaternion components in
`blender_rotation_to_camera_transform_angles`. -/
structure Sc where
  a : ℚ
  b : ℚ
  deriving DecidableEq, Repr

/-- Embed a rational number. -/
def Sc.ofQ (q : ℚ) : Sc := ⟨q, 0⟩

/-- Embedding of `math.degrees` applied to a raw rational value `x`
(the result is `x * 180 / π`). -/
def Sc.degRaw (x : ℚ) : Sc := ⟨0, x⟩

def Sc.sub (x y : Sc) : Sc := ⟨x.a - y.a, x.b - y.b⟩

instance : Zero Sc := ⟨⟨0, 0⟩⟩

/-- Real number denoted by an `Sc` value. -/
noncomputable def Sc.toReal (x : Sc) : ℝ := (x.a : ℝ) + (x.b : ℝ) * (180 / Real.pi)

/-- JSON/Python data values; `α` is the scalar type of JSON numbers.
`null` also stands for Python `None` (which is what `json.load` produces
for JSON null). -/
inductive JVal (α : Type) where
  | null
  | bool (b : Bool)
  | num (q : α)
  | str (s : String)
  | arr (xs : List (JVal α))
  | obj (fs : List (String × JVal α))

/-- Importer-side JSON values (rational numbers). -/
abbrev JQ := JVal ℚ

/-- Exporter-side JSON values. -/
abbrev JS := JVal Sc

mutual

/-- Structural equality of JSON values (Python `==` on parsed JSON). -/
def JVal.beq [DecidableEq α] : JVal α → JVal α → Bool
  | .null, .null => true
  | .bool a, .bool c => a == c
  | .num a, .num c => decide (a = c)
  | .str a, .str c => a == c
  | .arr xs, .arr ys => JVal.beqL xs ys
  | .obj fs, .obj gs => JVal.beqF fs gs
  | _, _ => false

/-- Structural equality of JSON arrays. -/
def JVal.beqL [DecidableEq α] : List (JVal α) → List (JVal α) → Bool
  | [], [] => true
  | x :: xs, y :: ys => JVal.beq x y && JVal.beqL xs ys
  | _, _ => false

/-- Structural equality of JSON object field lists. -/
def JVal.beqF [DecidableEq α] : List (String × JVal α) → List (String × JVal α) → Bool
  | [], [] => true
  | (k, v) :: fs, (l, w) :: gs => k == l && JVal.beq v w && JVal.beqF fs gs
  | _, _ => false

end

namespace JVal

/-- Association-list lookup among the fields of an object. -/
def lookup : List (String × JVal α) → String → Option (JVal α)
  | [], _ => none
  | (k, v) :: rest, key => if k == key then some v else lookup rest key

/-- Replace the value of `key` if present, else append the pair (Python
dict assignment semantics: insertion order kept, updates in place). -/
def setField : List (String × JVal α) → String → JVal α → List (String × JVal α)
  | [], key, v => [(key, v)]
  | (k, w) :: rest, key, v =>
      if k == key then (k, v) :: rest else (k, w) :: setField rest key v

/-- Remove a field (Python `dict.pop`). -/
def dropField : List (String × JVal α) → String → List (String × JVal α)
  | [], _ => []
  | (k, w) :: rest, key => if k == key then rest else (k, w) :: dropField rest key

/-- Python truthiness of a JSON value. -/
def truthy [Zero α] [DecidableEq α] : JVal α → Bool
  | null => false
  | bool b => b
  | num q => q != 0
  | str s => s ≠ ""
  | arr xs => !xs.isEmpty
  | obj fs => !fs.isEmpty

/-- Python `v.get(key, default)`; raises `AttributeError` when the
receiver is not a dict. -/
def get (v : JVal α) (key : String) (dflt : JVal α) : PyM σ (JVal α) :=
  match v with
  | obj fs =>
      match lookup fs key with
      | some w => pure w
      | none => pure dflt
  | _ => PyM.throw (.attributeError ("get"))

/-- Python `v[key]`: `KeyError` on a dict without the key, `TypeError`
on a non-dict. -/
def index (v : JVal α) (key : String) : PyM σ (JVal α) :=
  match v with
  | obj fs =>
      match lookup fs key with
      | some w => pure w
      | none => PyM.throw (.keyError key)
  | _ => PyM.throw (.typeError ("not subscriptable"))

/-- Python `v[0]` as used on label values: first list element, first
character of a string, otherwise an error. -/
def index0 (v : JVal α) : PyM σ (JVal α) :=
  match v with
  | arr (x :: _) => pure x
  | arr [] => PyM.throw .indexError
  | str s =>
      match s.data with
      | c :: _ => pure (str (String.mk [c]))
      | [] => PyM.throw .indexError
  | _ => PyM.throw (.typeError ("not subscriptable"))

/-- Python `key in v` on a dict; `TypeError` otherwise (iteration
membership over non-dicts is not exercised by the embedded paths). -/
def hasKey (v : JVal α) (key : String) : PyM σ Bool :=
  match v with
  | obj fs => pure ((lookup fs key).isSome)
  | _ => PyM.throw (.typeError ("argument of type is not iterable"))

/-- Python iteration over a value expected to be a list; the embedded
code only ever iterates lists here. -/
def iter (v : JVal α) : PyM σ (List (JVal α)) :=
  match v with
  | arr xs => pure xs
  | _ => PyM.throw (.typeError ("not iterable"))

/-- Python `v[key] = w` on a dict; `TypeError` otherwise. -/
def setKey (v : JVal α) (key : String) (w : JVal α) : PyM σ (JVal α) :=
  match v with
  | obj fs => pure (obj (setField fs key w))
  | _ => PyM.throw (.typeError ("does not support item assignment"))

/-- Python `v.pop(key, None)` on a dict. -/
def popKey (v : JVal α) (key : String) : JVal α :=
  match v with
  | obj fs => obj (dropField fs key)
  | w => w

/-- Expect a string (where Python would pass the value to an API that
raises `TypeError` on non-strings). -/
def expectStr (v : JVal α) : PyM σ String :=
  match v with
  | str s => pure s
  | _ => PyM.throw (.typeError ("expected str"))

/-- Python `{**base, **ext}`. -/
def merge (base ext : List (String × JVal α)) : List (String × JVal α) :=
  ext.foldl (fun acc kv => setField acc kv.1 kv.2) base

end JVal

/-- Structured log events; each constructor corresponds to one logger
call site in the sources, carrying the interpolated data. -/
inductive LogEvent (α : Type) where
  | coercedToSingleton (n : ℕ)
  | loadingModel (v : JVal α)
  | newModelFromUrl (objName : Option String) (url : JVal α)
  | implementRotation (angles : ℚ × ℚ × ℚ)
  | nonUniformScale (s : ℚ × ℚ × ℚ)
  | nonPositiveScale (s : ℚ)
  | multipleTranslate
  | translateNotLast
  | placingModel (pos : ℚ × ℚ × ℚ)
  | modelIdMissing
  | specificResourceNone
  | specificSourceNone
  | noBodyProp (v : JVal α)
  | bodyTypeUnsupported (v : JVal α)
  | cameraNoOrientation
  | cameraAmbiguousOrientation
  | unsupportedTransforms (v : JVal α)
  | lookAtPoint (p : ℚ × ℚ × ℚ)
  | lookAtCenter (p : ℚ × ℚ × ℚ)
  | pointCameraFromTo (src tgt : ℚ × ℚ × ℚ)
  | lookAtDirection (d : ℚ × ℚ × ℚ)
  | specificResourcesData (v : JVal α)
  | fovCastFailure (v : JVal α)
  | invalidSceneId (v : Option (JVal α))
  | creatingSceneJson (v : JVal α)
  | invalidCollection (v : Option (JVal α))
  | iiifPositionRotation
  | blenderFov
  | debugNote

/-- Structured operator reports (`self.report`), one constructor per
call site. -/
inductive RepMsg (α : Type) where
  | downloadingModel (url temp : String)
  | downloadedModel (temp : String)
  | errorDownloading (url : String)
  | noScenes
  | unknownItemType (v : JVal α)
  | noActiveContext
  | modelIdMissing
  | processingModel (v : JVal α)
  | settingBackground (v : JVal α)
  | errorBackground
  | successRead (path : String)
  | manifestData
  | successImported (path : String)
  | errorReadingManifest
  | couldNotDecode (what objName : String)

/-! ## Coordinates (src/modules/utils/coordinates.py), real-number semantics

`mathutils.Euler` and `mathutils.Quaternion` are modelled by records of
real components; the mathutils conversion routines `Euler.to_quaternion`
and `Quaternion.to_euler` are external C code and enter the embedding as
parameters (`MathUtils`). -/

/-- A `mathutils.Euler`: radian angles and an axis-order string. -/
structure BEuler where
  x : ℝ
  y : ℝ
  z : ℝ
  order : String

/-- A `mathutils.Quaternion` (w is the scalar part). -/
structure BQuat where
  w : ℝ
  x : ℝ
  y : ℝ
  z : ℝ

/-- A value that is either a `mathutils.Euler` or a
`mathutils.Quaternion` (the union type accepted by the converters). -/
inductive BRotation where
  | euler (e : BEuler)
  | quat (q : BQuat)

/-- Duck-typed `.x` attribute access on a rotation value. -/
def BRotation.x : BRotation → ℝ
  | .euler e => e.x
  | .quat q => q.x

/-- Duck-typed `.y` attribute access on a rotation value. -/
def BRotation.y : BRotation → ℝ
  | .euler e => e.y
  | .quat q => q.y

/-- Duck-typed `.z` attribute access on a rotation value. -/
def BRotation.z : BRotation → ℝ
  | .euler e => e.z
  | .quat q => q.z

/-- The external mathutils conversion routines used by
`Coordinates.coerce_to_euler`. -/
structure MathUtils where
  eulerToQuat : BEuler → BQuat
  quatToEuler : BQuat → String → BEuler

/-- Embedding of `math.radians`. -/
noncomputable def radiansR (d : ℝ) : ℝ := d * Real.pi / 180

/-- Embedding of `math.degrees`. -/
noncomputable def degreesR (r : ℝ) : ℝ := r * 180 / Real.pi

/-- Coordinates.iiif_position_to_blender_vector:
`(x, y, z) ↦ Vector((x, -z, y))`. -/
def iiif_position_to_blender_vector (p : ℝ × ℝ × ℝ) : ℝ × ℝ × ℝ :=
  (p.1, -p.2.2, p.2.1)

/-- Coordinates.blender_vector_to_iiif_position:
`vec ↦ (vec[0], vec[2], -vec[1])`. -/
def blender_vector_to_iiif_position (v : ℝ × ℝ × ℝ) : ℝ × ℝ × ℝ :=
  (v.1, v.2.2, -v.2.1)

/-- Coordinates.model_transform_angles_to_blender_euler. -/
noncomputable def model_transform_angles_to_blender_euler
    (angles : ℝ × ℝ × ℝ) : BEuler :=
  let y_blender_angle := -(radiansR angles.2.2)
  let z_blender_angle := radiansR angles.2.1
  let x_blender_angle := radiansR angles.1
  { x := x_blender_angle, y := y_blender_angle, z := z_blender_angle,
    order := "YZX" }

/-- Coordinates.coerce_to_euler, with the external mathutils conversions
passed in via `mu`. -/
def coerce_to_euler (mu : MathUtils) (rotation : BRotation)
    (order : String) : BEuler :=
  match rotation with
  | .euler e => if e.order ≠ order then mu.quatToEuler (mu.eulerToQuat e) order else e
  | .quat q => mu.quatToEuler q order

/-- Coordinates.blender_rotation_to_model_transform_angles: coerces to a
"YZX" Euler, then reads the coerced components. -/
noncomputable def blender_rotation_to_model_transform_angles
    (mu : MathUtils) (rotation : BRotation) : ℝ × ℝ × ℝ :=
  let euler_rotation := coerce_to_euler mu rotation ("YZX")
  (degreesR euler_rotation.x,
   degreesR euler_rotation.z,
   degreesR (-euler_rotation.y))

/-- Coordinates.camera_transform_angles_to_blender_euler. -/
noncomputable def camera_transform_angles_to_blender_euler
    (angles : ℝ × ℝ × ℝ) : BEuler :=
  let x_blender_angle := radiansR (angles.1 + 90.0)
  let y_blender_angle := radiansR angles.2.1
  let z_blender_angle := radiansR angles.2.2
  { x := x_blender_angle, y := y_blender_angle, z := z_blender_angle,
    order := "ZYX" }

/-- Coordinates.blender_rotation_to_camera_transform_angles.  The source
binds the coerced Euler to a local (`euler_rotation`) but then reads the
`.x`, `.y`, `.z` attributes of the original `rotation` argument, so the
returned components come from the raw input representation. -/
noncomputable def blender_rotation_to_camera_transform_angles
    (mu : MathUtils) (rotation : BRotation) : ℝ × ℝ × ℝ :=
  let _euler_rotation := coerce_to_euler mu rotation ("ZYX")
  (degreesR rotation.x - 90.0,
   degreesR rotation.y,
   degreesR rotation.z)

/-! ## Coordinates, exact rational specialization

The importer and exporter state machines only ever feed these functions
rational degree values (resp. stored `RadQ` angles), so the same source
lines are also embedded over exact rational data.  `EulerQ` plays the
role of `mathutils.Euler` with `RadQ` components. -/

/-- A `mathutils.Euler` whose radian components are exact rational
multiples of `π/180`. -/
structure EulerQ where
  x : RadQ
  y : RadQ
  z : RadQ
  order : String
  deriving DecidableEq, Repr

/-- A `mathutils.Quaternion` with rational components. -/
structure QuatQ where
  w : ℚ
  x : ℚ
  y : ℚ
  z : ℚ
  deriving DecidableEq, Repr

/-- Rational specialization of
Coordinates.iiif_position_to_blender_vector. -/
def iiif_position_to_blender_vectorQ (p : ℚ × ℚ × ℚ) : ℚ × ℚ × ℚ :=
  (p.1, -p.2.2, p.2.1)

/-- Rational specialization of
Coordinates.blender_vector_to_iiif_position. -/
def blender_vector_to_iiif_positionQ (v : ℚ × ℚ × ℚ) : ℚ × ℚ × ℚ :=
  (v.1, v.2.2, -v.2.1)

/-- Rational specialization of
Coordinates.model_transform_angles_to_blender_euler. -/
def model_transform_angles_to_blender_eulerQ (angles : ℚ × ℚ × ℚ) : EulerQ :=
  let y_blender_angle := (radiansQ angles.2.2).neg
  let z_blender_angle := radiansQ angles.2.1
  let x_blender_angle := radiansQ angles.1
  { x := x_blender_angle, y := y_blender_angle, z := z_blender_angle,
    order := "YZX" }

/-- Rational specialization of
Coordinates.camera_transform_angles_to_blender_euler. -/
def camera_transform_angles_to_blender_eulerQ (angles : ℚ × ℚ × ℚ) : EulerQ :=
  let x_blender_angle := radiansQ (angles.1 + 90)
  let y_blender_angle := radiansQ angles.2.1
  let z_blender_angle := radiansQ angles.2.2
  { x := x_blender_angle, y := y_blender_angle, z := z_blender_angle,
    order := "ZYX" }

/-! ## Claims C1 - C3 (coordinate conversions) -/

/-- C1: converting a manifest-space position to a scene-space vector and
back (`blender_vector_to_iiif_position` after
`iiif_position_to_blender_vector`) is the identity, and so is the
symmetric scene→manifest→scene composition; the two maps are exact
inverses for all inputs. -/
theorem position_conversions_are_inverse :
    ∀ p : ℝ × ℝ × ℝ,
      blender_vector_to_iiif_position (iiif_position_to_blender_vector p) = p ∧
      iiif_position_to_blender_vector (blender_vector_to_iiif_position p) = p := by
  rintro ⟨x, y, z⟩
  constructor <;>
    simp [iiif_position_to_blender_vector, blender_vector_to_iiif_position]

/-- C2: for model angles in `[-180,180)^3`,
`model_transform_angles_to_blender_euler` yields a "YZX" Euler with
radian components `(radians rx, -(radians rz), radians ry)`, and
`blender_rotation_to_model_transform_angles` applied to that Euler
(after coercing to "YZX" order, a no-op here) returns exactly
`(rx, ry, rz)` — in particular within 1e-6 degrees. -/
theorem model_rotation_roundtrip (mu : MathUtils) (rx ry rz : ℝ)
    (hx : -180 ≤ rx ∧ rx < 180) (hy : -180 ≤ ry ∧ ry < 180)
    (hz : -180 ≤ rz ∧ rz < 180) :
    model_transform_angles_to_blender_euler (rx, ry, rz) =
      { x := radiansR rx, y := -(radiansR rz), z := radiansR ry,
        order := "YZX" } ∧
    blender_rotation_to_model_transform_angles mu
      (.euler (model_transform_angles_to_blender_euler (rx, ry, rz))) =
      (rx, ry, rz) := by
  have hpi : Real.pi ≠ 0 := Real.pi_ne_zero
  refine ⟨rfl, ?_⟩
  simp only [blender_rotation_to_model_transform_angles,
    model_transform_angles_to_blender_euler, coerce_to_euler]
  norm_num
  refine ⟨?_, ?_, ?_⟩ <;>
    · simp only [degreesR, radiansR]
      field_simp

/-- Closed witness for `model_rotation_roundtrip` at angles
`(30, -45, 90)` with trivial mathutils conversions. -/
theorem model_rotation_roundtrip_witness :
    ((-180:ℝ) ≤ 30 ∧ (30:ℝ) < 180) ∧
    ((-180:ℝ) ≤ -45 ∧ (-45:ℝ) < 180) ∧
    ((-180:ℝ) ≤ 90 ∧ (90:ℝ) < 180) ∧
    blender_rotation_to_model_transform_angles
      ⟨fun _ => ⟨1, 0, 0, 0⟩, fun _ o => ⟨0, 0, 0, o⟩⟩
      (.euler (model_transform_angles_to_blender_euler (30, -45, 90))) =
      (30, -45, 90) := by
  refine ⟨by norm_num, by norm_num, by norm_num, ?_⟩
  exact (model_rotation_roundtrip ⟨fun _ => ⟨1, 0, 0, 0⟩, fun _ o => ⟨0, 0, 0, o⟩⟩
    30 (-45) 90 (by norm_num) (by norm_num) (by norm_num)).2

/-- C3 (code defect): `blender_rotation_to_camera_transform_angles`
computes the "ZYX" coercion of its argument but never reads it — the
returned components come from the raw representation.  For the
quaternion `(w,x,y,z) = (0,1,0,0)` (the rotation by 180° about X, whose
"ZYX" Euler decomposition is `(π, 0, 0)`), the output is independent of
the mathutils conversion, equals `(180/π - 90, 0, 0)`, differs from the
value `(90, 0, 0)` that reading the coerced Euler would give, and
`180/π - 90 ≠ 90`. -/
theorem camera_rotation_reads_raw_components
    (mu : MathUtils)
    (hmu : mu.quatToEuler ⟨0, 1, 0, 0⟩ ("ZYX") = ⟨Real.pi, 0, 0, "ZYX"⟩) :
    (∀ mu2 : MathUtils,
      blender_rotation_to_camera_transform_angles mu (.quat ⟨0, 1, 0, 0⟩) =
        blender_rotation_to_camera_transform_angles mu2 (.quat ⟨0, 1, 0, 0⟩)) ∧
    blender_rotation_to_camera_transform_angles mu (.quat ⟨0, 1, 0, 0⟩) =
      (180 / Real.pi - 90, 0, 0) ∧
    (degreesR (coerce_to_euler mu (.quat ⟨0, 1, 0, 0⟩) ("ZYX")).x - 90,
     degreesR (coerce_to_euler mu (.quat ⟨0, 1, 0, 0⟩) ("ZYX")).y,
     degreesR (coerce_to_euler mu (.quat ⟨0, 1, 0, 0⟩) ("ZYX")).z) =
      (90, 0, 0) ∧
    (180 / Real.pi - 90 : ℝ) ≠ 90 := by
  have hpi : Real.pi ≠ 0 := Real.pi_ne_zero
  have hgt : (3:ℝ) < Real.pi := Real.pi_gt_three
  refine ⟨?_, ?_, ?_, ?_⟩
  · intro mu2
    simp [blender_rotation_to_camera_transform_angles, BRotation.x,
      BRotation.y, BRotation.z]
  · simp [blender_rotation_to_camera_transform_angles, BRotation.x,
      BRotation.y, BRotation.z, degreesR]
    norm_num
  · simp only [coerce_to_euler, hmu]
    simp only [degreesR]
    norm_num
    field_simp
    norm_num
  · intro h
    have h180 : (180:ℝ) / Real.pi = 180 := by linarith
    have : (180:ℝ) = 180 * Real.pi := by
      field_simp at h180
      linarith
    nlinarith

/-- Closed witness for `camera_rotation_reads_raw_components` with a
conversion table mapping the test quaternion to its true "ZYX" Euler. -/
theorem camera_rotation_reads_raw_components_witness :
    blender_rotation_to_camera_transform_angles
      ⟨fun _ => ⟨1, 0, 0, 0⟩, fun _ _ => ⟨Real.pi, 0, 0, "ZYX"⟩⟩
      (.quat ⟨0, 1, 0, 0⟩) = (180 / Real.pi - 90, 0, 0) ∧
    (180 / Real.pi - 90 : ℝ) ≠ 90 := by
  have h := camera_rotation_reads_raw_components
    ⟨fun _ => ⟨1, 0, 0, 0⟩, fun _ _ => ⟨Real.pi, 0, 0, "ZYX"⟩⟩ rfl
  exact ⟨h.2.1, h.2.2.2⟩

/-! ## Blender data model

Host-owned scene-graph state: collections, objects with transforms and
custom-property bags, the active/selected object registers, the world
background, the registered scene string-properties, reports and logs.
Identifiers follow `bpy`: objects and collections are referenced by
name. -/

/-- A value stored in a Blender custom-property bag.  `jsonDump v`
stands for the string `json.dumps(v)` (serialization is injective, so
the JSON value itself is kept); `raw v` is a JSON value assigned
directly. -/
inductive PropVal (α : Type) where
  | str (s : String)
  | jsonDump (v : JVal α)
  | raw (v : JVal α)

/-- A `bpy.types.Collection`. -/
structure BCollection (α : Type) where
  name : String
  children : List String := []
  objs : List String := []
  props : List (String × PropVal α) := []

/-- A `bpy.types.Object` together with the data-block fields the plugin
touches.  `world_corners` holds `matrix_world @ Vector(corner)` for the
object's `bound_box` corners, i.e. the host-computed world-space bounds
data consumed by `get_annotation_bounds_center`. -/
structure BObject (α : Type) where
  name : String
  objType : String := ("MESH")
  location : ℚ × ℚ × ℚ := (0, 0, 0)
  scale : ℚ × ℚ × ℚ := (1, 1, 1)
  rotation_mode : String := ("XYZ")
  rotation_euler : EulerQ := ⟨⟨0⟩, ⟨0⟩, ⟨0⟩, "XYZ"⟩
  rotation_quaternion : QuatQ := ⟨1, 0, 0, 0⟩
  world_corners : List (ℚ × ℚ × ℚ) := []
  camType : String := ("PERSP")
  angle_y : RadQ := ⟨0⟩
  sensor_fit : String := ("AUTO")
  lightType : String := ("POINT")
  lightColor : ℚ × ℚ × ℚ := (1, 1, 1)
  lightEnergy : ℚ := 10
  props : List (String × PropVal α) := []

/-- `bpy.context.scene.world` with the background node the importer
writes to. -/
structure World where
  use_nodes : Bool := true
  background : ℚ × ℚ × ℚ × ℚ := (0, 0, 0, 1)

/-- The Blender state visible to the plugin. -/
structure BState (α : Type) where
  collections : List (BCollection α) := []
  rootChildren : List String := []
  objs : List (BObject α) := []
  active_object : Option String := none
  selected_objects : List String := []
  active_layer_collection : Option String := none
  world : Option World := some {}
  sceneProps : List (String × String) := []
  written : Option (String × JVal α) := none
  reports : List (String × RepMsg α) := []
  logs : List (String × LogEvent α) := []

/-- Append an operator report (`self.report`). -/
def report (lvl : String) (m : RepMsg α) : PyM (BState α) Unit :=
  PyM.modifyS (fun st => { st with reports := st.reports ++ [(lvl, m)] })

/-- Append a logger event. -/
def logE (lvl : String) (e : LogEvent α) : PyM (BState α) Unit :=
  PyM.modifyS (fun st => { st with logs := st.logs ++ [(lvl, e)] })

/-- Append several logger events. -/
def logAll (lvl : String) (es : List (LogEvent α)) : PyM (BState α) Unit :=
  PyM.modifyS (fun st => { st with logs := st.logs ++ es.map (lvl, ·) })

/-- Owner of a custom-property bag. -/
inductive Owner where
  | coll (name : String)
  | obj (name : String)
  deriving DecidableEq, Repr

/-- Association update on a property bag. -/
def PropVal.setIn : List (String × PropVal α) → String → PropVal α →
    List (String × PropVal α)
  | [], key, v => [(key, v)]
  | (k, w) :: rest, key, v =>
      if k == key then (k, v) :: rest else (k, w) :: PropVal.setIn rest key v

/-- Association lookup on a property bag. -/
def PropVal.getIn : List (String × PropVal α) → String → Option (PropVal α)
  | [], _ => none
  | (k, w) :: rest, key => if k == key then some w else PropVal.getIn rest key

/-- Find a collection by name. -/
def BState.findColl (st : BState α) (name : String) : Option (BCollection α) :=
  st.collections.find? (fun c => c.name == name)

/-- Find an object by name. -/
def BState.findObj (st : BState α) (name : String) : Option (BObject α) :=
  st.objs.find? (fun o => o.name == name)

/-- Mutate a named collection in place. -/
def BState.withColl (st : BState α) (name : String)
    (f : BCollection α → BCollection α) : BState α :=
  { st with collections :=
      st.collections.map (fun c => if c.name == name then f c else c) }

/-- Mutate a named object in place. -/
def BState.withObj (st : BState α) (name : String)
    (f : BObject α → BObject α) : BState α :=
  { st with objs := st.objs.map (fun o => if o.name == name then f o else o) }

/-- Write a custom property (`owner[key] = value`). -/
def setPropOn (o : Owner) (key : String) (v : PropVal α) :
    PyM (BState α) Unit :=
  match o with
  | .coll n => PyM.modifyS (fun st =>
      st.withColl n (fun c => { c with props := PropVal.setIn c.props key v }))
  | .obj n => PyM.modifyS (fun st =>
      st.withObj n (fun ob => { ob with props := PropVal.setIn ob.props key v }))

/-- Read a custom property (`owner.get(key)`), `None` when absent. -/
def getPropOn (o : Owner) (key : String) : PyM (BState α) (Option (PropVal α)) := do
  let st ← PyM.getS
  match o with
  | .coll n =>
      match st.findColl n with
      | some c => pure (PropVal.getIn c.props key)
      | none => PyM.throw (.attributeError ("collection missing"))
  | .obj n =>
      match st.findObj n with
      | some ob => pure (PropVal.getIn ob.props key)
      | none => PyM.throw (.attributeError ("object missing"))

/-- Read a registered scene string property
(`getattr(context.scene, key)`); registered `StringProperty` values
default to the empty string. -/
def getSceneProp (st : BState α) (key : String) : String :=
  match st.sceneProps.find? (fun kv => kv.1 == key) with
  | some kv => kv.2
  | none => ""

/-- Write a registered scene string property (`setattr`); non-string
values raise `TypeError`. -/
def setSceneProp (key : String) (v : JVal α) : PyM (BState α) Unit :=
  match v with
  | .str s => PyM.modifyS (fun st =>
      { st with sceneProps :=
          (st.sceneProps.filter (fun kv => kv.1 ≠ key)) ++ [(key, s)] })
  | _ => PyM.throw (.typeError ("StringProperty expects str"))

/-! ## IIIFMetadata (src/modules/metadata.py) -/

/-- Python `json.loads(data) if data else None` on a stored property
value.  Dumped JSON round-trips to its value; an empty string is falsy;
other shapes are not produced under the `iiif_*` keys by the plugin. -/
def loadsProp : Option (PropVal α) → PyM (BState α) (Option (JVal α))
  | none => pure none
  | some (.jsonDump v) => pure (some v)
  | some (.str s) =>
      if s == "" then pure none else PyM.throw (.valueError ("json.loads"))
  | some (.raw _) => PyM.throw (.typeError ("json.loads expects str"))

/-- IIIFMetadata.store_manifest. -/
def store_manifest (nowIso : String) (o : Owner) (data : JVal α) :
    PyM (BState α) Unit := do
  setPropOn o ("iiif_manifest") (.jsonDump data)
  setPropOn o ("iiif_import_date") (.str nowIso)
  setPropOn o ("iiif_type") (.str ("Manifest"))
  let idv ← data.get ("id") (.str ("not_supplied"))
  setPropOn o ("iiif_id") (.raw idv)

/-- IIIFMetadata.store_annotation (stores the annotation JSON and, when
present, its body, id and type). -/
def store_annot (o : Owner) (data : JVal α) : PyM (BState α) Unit := do
  setPropOn o ("iiif_annotation") (.jsonDump data)
  if ← data.hasKey ("body") then do
    let b ← data.index ("body")
    setPropOn o ("iiif_body") (.jsonDump b)
  if ← data.hasKey ("id") then do
    let i ← data.index ("id")
    setPropOn o ("iiif_id") (.raw i)
  if ← data.hasKey ("type") then do
    let t ← data.index ("type")
    setPropOn o ("iiif_type") (.raw t)

/-- IIIFMetadata.store_scene. -/
def store_scene (o : Owner) (data : JVal α) : PyM (BState α) Unit := do
  setPropOn o ("iiif_scene") (.jsonDump data)
  setPropOn o ("iiif_type") (.str ("Scene"))
  if ← data.hasKey ("id") then do
    let idv ← data.get ("id") (.str ("not_supplied"))
    setPropOn o ("iiif_id") (.raw idv)

/-- IIIFMetadata.get_manifest. -/
def get_manifest (o : Owner) : PyM (BState α) (Option (JVal α)) := do
  loadsProp (← getPropOn o ("iiif_manifest"))

/-- IIIFMetadata.get_annotation. -/
def get_annot (o : Owner) : PyM (BState α) (Option (JVal α)) := do
  loadsProp (← getPropOn o ("iiif_annotation"))

/-- IIIFMetadata.get_scene. -/
def get_scene (o : Owner) : PyM (BState α) (Option (JVal α)) := do
  loadsProp (← getPropOn o ("iiif_scene"))

/-! ## os.path helpers (as used by the importer) -/

/-- os.path.basename: the suffix after the last slash. -/
def osBasename (p : String) : String :=
  let rec go : List Char → List Char → List Char
    | [], acc => acc
    | c :: rest, acc => if c == '/' then go rest rest else go rest acc
  String.mk (go p.data p.data)

/-- The extension component of os.path.splitext: the suffix from the
last dot of the basename, unless every character before that dot is
itself a dot. -/
def osExtension (p : String) : String :=
  let rec go : List Char → Bool → Option (List Char) → Option (List Char)
    | [], _, acc => acc
    | c :: rest, seenNonDot, acc =>
        if c == '.' then
          if seenNonDot then go rest seenNonDot (some (c :: rest))
          else go rest seenNonDot acc
        else go rest true acc
  match go (osBasename p).data false none with
  | some ext => String.mk ext
  | none => ""

/-- os.path.join for a directory and a relative file name. -/
def osJoin (a b : String) : String :=
  if (match b.data with | '/' :: _ => true | _ => false) then b
  else if a == "" then b
  else if (a.data.getLast? == some '/') then a ++ b
  else a ++ "/" ++ b

/-- ASCII lowercasing of one character. -/
def asciiLowerChar (c : Char) : Char :=
  if 'A' ≤ c && c ≤ 'Z' then Char.ofNat (c.toNat + 32) else c

/-- Python `str.lower` restricted to ASCII (file extensions here). -/
def strLower (s : String) : String := String.mk (s.data.map asciiLowerChar)

/-- Blender name collision handling: `.001`-style suffixes. -/
def numSuffix (n : ℕ) : String :=
  let d := toString n
  let pad := if d.length < 3 then String.mk (List.replicate (3 - d.length) '0') else ""
  "." ++ pad ++ d

/-- A fresh data-block name given the taken names. -/
def freshName (taken : List String) (base : String) : String :=
  if !taken.contains base then base
  else
    match (List.range (taken.length + 1)).find?
        (fun k => !taken.contains (base ++ numSuffix (k + 1))) with
    | some k => base ++ numSuffix (k + 1)
    | none => base

/-! ## json_patterns (src/modules/utils/json_patterns.py) -/

/-- Python `v == "s"` for a JSON value against a string literal. -/
def jEqStr (v : JVal α) (s : String) : Bool :=
  match v with
  | .str t => t == s
  | _ => false

/-- force_as_object: `None` and dicts unchanged, strings wrapped as
`{"id": v}` plus the optional default type, everything else a
`ValueError`. -/
def force_as_object (json_data : JVal α) (default_type : Option String) :
    Except PyErr (JVal α) :=
  match json_data with
  | .null => .ok .null
  | .obj fs => .ok (.obj fs)
  | .str s =>
      let retVal : List (String × JVal α) := [(("id"), .str s)]
      match default_type with
      | some t => .ok (.obj (JVal.setField retVal ("type") (.str t)))
      | none => .ok (.obj retVal)
  | _ => .error (.valueError ("force_as_object : cannot interpret as a resource"))

/-- force_as_singleton, returning the value together with the warnings
logged by `json_patterns.logger`. -/
def force_as_singleton (obj : JVal α) : JVal α × List (LogEvent α) :=
  match obj with
  | .null => (.null, [])
  | .arr [] => (.null, [])
  | .arr (x :: xs) =>
      if xs.isEmpty then (x, [])
      else (x, [.coercedToSingleton (xs.length + 1)])
  | v => (v, [])

/-- force_as_list. -/
def force_as_list (obj : JVal α) : JVal α :=
  match obj with
  | .null => .arr []
  | .arr xs => .arr xs
  | v => .arr [v]

/-- Decimal digit run to a natural number. -/
def decDigits : List Char → Option ℕ
  | [] => none
  | cs =>
      cs.foldl
        (fun acc c =>
          acc.bind (fun n =>
            if c.isDigit then some (10 * n + (c.toNat - 48)) else none))
        (some 0)

/-- Split a character list at every dot. -/
def splitAtDots : List Char → List (List Char)
  | [] => [[]]
  | c :: rest =>
      let r := splitAtDots rest
      if c == '.' then [] :: r
      else
        match r with
        | h :: t => (c :: h) :: t
        | [] => [[c]]

/-- Python `float(str)` on plain decimal literals
(`[+-]?digits[.digits]?`); scientific notation and the special values
are not produced by the embedded inputs. -/
def parseDecimal (s : String) : Option ℚ :=
  let core : List Char → Option ℚ := fun cs =>
    match splitAtDots cs with
    | [ip] => (decDigits ip).map (fun n => (n : ℚ))
    | [ip, fp] =>
        if ip.isEmpty && fp.isEmpty then none
        else
          let ipart : Option ℕ := if ip.isEmpty then some 0 else decDigits ip
          let fpart : Option ℕ := if fp.isEmpty then some 0 else decDigits fp
          match ipart, fpart with
          | some i, some f =>
              some ((i : ℚ) + (f : ℚ) / ((10 : ℚ) ^ fp.length))
          | _, _ => none
    | _ => none
  match s.data with
  | '+' :: rest => core rest
  | '-' :: rest => (core rest).map Neg.neg
  | cs => core cs

/-- Python `float(...)` as used by `axes_named_values` and the
fieldOfView handling: numbers and booleans convert, decimal strings
parse, everything else raises. -/
def pyFloat (v : JVal ℚ) : Except PyErr ℚ :=
  match v with
  | .num q => .ok q
  | .bool b => .ok (if b then 1 else 0)
  | .str s =>
      match parseDecimal s with
      | some q => .ok q
      | none => .error (.valueError ("could not convert string to float"))
  | _ => .error (.typeError ("float() argument"))

/-- axes_named_values: the `x`, `y`, `z` properties (default 0) as
floats. -/
def axes_named_values (xyzObj : JVal ℚ) : PyM σ (ℚ × ℚ × ℚ) := do
  let xv ← xyzObj.get ("x") (.num 0)
  let yv ← xyzObj.get ("y") (.num 0)
  let zv ← xyzObj.get ("z") (.num 0)
  let x ← PyM.ofExcept (pyFloat xv)
  let y ← PyM.ofExcept (pyFloat yv)
  let z ← PyM.ofExcept (pyFloat zv)
  pure (x, y, z)

/-! ## color (src/modules/utils/color.py) -/

/-- Hexadecimal digit value. -/
def hexDigit (c : Char) : Option ℕ :=
  if c.isDigit then some (c.toNat - 48)
  else if 'a' ≤ c && c ≤ 'f' then some (c.toNat - 97 + 10)
  else if 'A' ≤ c && c ≤ 'F' then some (c.toNat - 65 + 10)
  else none

/-- Python `int(s, 16)`; `ValueError` on the empty string or non-hex
characters. -/
def hexVal (cs : List Char) : Except PyErr ℕ :=
  match cs with
  | [] => .error (.valueError ("invalid literal for int"))
  | _ =>
      cs.foldl
        (fun acc c =>
          acc.bind (fun n =>
            match hexDigit c with
            | some d => .ok (16 * n + d)
            | none => .error (.valueError ("invalid literal for int"))))
        (.ok 0)

/-- hex_to_rgba: strips leading `#` characters and reads three
two-character hex slices (Python slicing truncates silently). -/
def hex_to_rgba (hex_color : String) : Except PyErr (ℚ × ℚ × ℚ × ℚ) := do
  let cs := hex_color.data.dropWhile (fun c => c == '#')
  let r ← hexVal (cs.take 2)
  let g ← hexVal ((cs.drop 2).take 2)
  let b ← hexVal ((cs.drop 4).take 2)
  pure ((r : ℚ) / 255, (g : ℚ) / 255, (b : ℚ) / 255, 1)

/-! ## Importer (src/modules/importer.py)

External capabilities are collected in `ImportEnv`: the temp directory
and clock strings, URL fetching (`urllib.request.urlretrieve`), the
glTF importer (`bpy.ops.import_scene.gltf`, which creates objects and
sets the active/selected registers), `Vector.to_track_quat` and the
file/JSON reader used by `execute`. -/

/-- Result set of a Blender operator `execute`. -/
inductive OpResult where
  | FINISHED
  | CANCELLED
  deriving DecidableEq, Repr

/-- External capabilities of the import operator. -/
structure ImportEnv where
  tempdir : String
  timeString : String
  nowIso : String
  fetchOk : String → Bool
  importGltf : String → BState ℚ → BState ℚ
  trackQuat : ℚ × ℚ × ℚ → QuatQ
  contextPresent : Bool := true
  readFile : String → Option JQ

/-- Dereference a possibly-`None` object handle (attribute access on
`None` raises `AttributeError`). -/
def objRef (o : Option String) : PyM (BState α) String :=
  match o with
  | some n => pure n
  | none => PyM.throw (.attributeError ("NoneType"))

/-- Read an object's location. -/
def objLocation (n : String) : PyM (BState α) (ℚ × ℚ × ℚ) := do
  let st ← PyM.getS
  match st.findObj n with
  | some ob => pure ob.location
  | none => PyM.throw (.attributeError ("object missing"))

def addV3 (u v : ℚ × ℚ × ℚ) : ℚ × ℚ × ℚ :=
  (u.1 + v.1, u.2.1 + v.2.1, u.2.2 + v.2.2)

def subV3 (u v : ℚ × ℚ × ℚ) : ℚ × ℚ × ℚ :=
  (u.1 - v.1, u.2.1 - v.2.1, u.2.2 - v.2.2)

/-- ImportIIIF3DManifest.download_model.  The URL string feeds
`os.path` (non-strings raise `TypeError` there); the fetch itself
either succeeds or raises, after the first DEBUG report. -/
def download_model (env : ImportEnv) (urlv : JQ) : PyM (BState ℚ) String := do
  let url ← urlv.expectStr
  let model_name := osBasename url
  let model_extension := osExtension model_name
  let temp_file :=
    osJoin env.tempdir
      ("temp_model_" ++ env.timeString ++ "_" ++ model_name ++ model_extension)
  report ("DEBUG") (.downloadingModel url temp_file)
  if env.fetchOk url then do
    report ("DEBUG") (.downloadedModel temp_file)
    pure temp_file
  else do
    report ("ERROR") (.errorDownloading url)
    PyM.throw (.urlError url)

/-- ImportIIIF3DManifest.import_model. -/
def import_model (env : ImportEnv) (filepath : String) : PyM (BState ℚ) Unit := do
  let file_ext := strLower (osExtension filepath)
  if file_ext == (".glb") || file_ext == (".gltf") then
    PyM.modifyS (env.importGltf filepath)
  else
    PyM.throw (.valueError ("Unsupported file format: " ++ file_ext))

/-- The view-layer loop at the top of process_annotation_model: make
`parent_collection` the active layer collection when it is a child of
the view layer's root. -/
def setActiveLayer (parent : String) : PyM (BState ℚ) Unit :=
  PyM.modifyS (fun st =>
    if st.rootChildren.contains parent then
      { st with active_layer_collection := some parent }
    else st)

/-- The list comprehension `[t for t in ts if t["type"] in {ty}]`. -/
def filterByType (ts : List JQ) (ty : String) : PyM (BState ℚ) (List JQ) :=
  match ts with
  | [] => pure []
  | t :: rest => do
      let tv ← t.index ("type")
      let tail ← filterByType rest ty
      pure (if jEqStr tv ty then t :: tail else tail)

/-- Per-object tail of process_annotation_model: store provenance, the
`annotation_id` / `iiif_source_url` properties, and relink each selected
object under the parent collection. -/
def linkSelected (annot_data model_id : JQ) (parent : String) :
    List String → PyM (BState ℚ) Unit
  | [] => pure ()
  | n :: rest => do
      store_annot (.obj n) annot_data
      let aid ← annot_data.get ("id") .null
      setPropOn (.obj n) ("annotation_id") (.raw aid)
      setPropOn (.obj n) ("iiif_source_url") (.raw model_id)
      PyM.modifyS (fun st =>
        let dropped := st.collections.map
          (fun c => { c with objs := c.objs.filter (fun o => o ≠ n) })
        let unlinked := { st with collections := dropped }
        unlinked.withColl parent (fun c => { c with objs := c.objs ++ [n] }))
      linkSelected annot_data model_id parent rest

/-- ImportIIIF3DManifest.process_annotation_model. -/
def process_annotation_model (env : ImportEnv)
    (source_data specific_resource_data annot_data : JQ)
    (parent_collection : String) : PyM (BState ℚ) Unit := do
  if !env.contextPresent then do
    report ("ERROR") (.noActiveContext)
    return
  setActiveLayer parent_collection
  let model_id ← source_data.get ("id") .null
  if !(JVal.truthy model_id) then do
    report ("ERROR") (.modelIdMissing)
    logE ("error") (.modelIdMissing)
    return
  else
    logE ("debug") (.loadingModel model_id)
  report ("DEBUG") (.processingModel model_id)
  let temp_file ← download_model env model_id
  import_model env temp_file
  let st0 ← PyM.getS
  let new_model := st0.active_object
  logE ("info") (.newModelFromUrl new_model model_id)
  let transform_data ←
    (if JVal.truthy specific_resource_data then do
        let t ← specific_resource_data.get ("transform") .null
        pure (force_as_list t)
      else pure specific_resource_data)
  if JVal.truthy transform_data then do
    let ts ← transform_data.iter
    let rotFiltered ← filterByType ts ("RotateTransform")
    let (rotation_data, w1) := force_as_singleton (.arr rotFiltered)
    logAll ("warning") w1
    if JVal.truthy rotation_data then do
      let iiif_angles ← axes_named_values rotation_data
      let blender_euler := model_transform_angles_to_blender_eulerQ iiif_angles
      logE ("debug") (.implementRotation iiif_angles)
      let nm ← objRef new_model
      PyM.modifyS (fun st => st.withObj nm (fun ob =>
        { ob with rotation_mode := blender_euler.order,
                  rotation_euler := blender_euler }))
    let scaleFiltered ← filterByType ts ("ScaleTransform")
    let (scale_data, w2) := force_as_singleton (.arr scaleFiltered)
    logAll ("warning") w2
    if JVal.truthy scale_data then do
      let axes_scale ← axes_named_values scale_data
      if !(axes_scale.1 == axes_scale.2.1 && axes_scale.2.1 == axes_scale.2.2) then
        logE ("warning") (.nonUniformScale axes_scale)
      else if axes_scale.1 ≤ 0 then
        logE ("warning") (.nonPositiveScale axes_scale.1)
      else do
        let nm ← objRef new_model
        PyM.modifyS (fun st => st.withObj nm (fun ob =>
          { ob with scale := axes_scale }))
    let translateTransforms ← filterByType ts ("TranslateTransform")
    if translateTransforms.length > 1 then
      logE ("warning") (.multipleTranslate)
    else
      match translateTransforms with
      | [translate_data] => do
          (match ts.getLast? with
            | some lastT =>
                if !(JVal.beq translate_data lastT) then
                  logE ("warning") (.translateNotLast)
                else pure ()
            | none => PyM.throw .indexError)
          let tv ← axes_named_values translate_data
          let translate_vector := iiif_position_to_blender_vectorQ tv
          let nm ← objRef new_model
          let loc ← objLocation nm
          PyM.modifyS (fun st => st.withObj nm (fun ob =>
            { ob with location := addV3 loc translate_vector }))
      | _ => pure ()
  let tRaw ← annot_data.get ("target") .null
  let (tSing, w3) := force_as_singleton tRaw
  logAll ("warning") w3
  let target_data ← PyM.ofExcept (force_as_object tSing (some ("Scene")))
  if JVal.truthy target_data then do
    let tty ← target_data.index ("type")
    if jEqStr tty ("SpecificResource") then do
      let sRaw ← target_data.get ("selector") .null
      let (selector_data, w4) := force_as_singleton sRaw
      logAll ("warning") w4
      if JVal.truthy selector_data then do
        let sty ← selector_data.index ("type")
        if jEqStr sty ("PointSelector") then do
          let iiif_pos ← axes_named_values selector_data
          let blender_vector := iiif_position_to_blender_vectorQ iiif_pos
          logE ("debug") (.placingModel iiif_pos)
          let nm ← objRef new_model
          let loc ← objLocation nm
          PyM.modifyS (fun st => st.withObj nm (fun ob =>
            { ob with location := addV3 loc blender_vector }))
  let st1 ← PyM.getS
  linkSelected annot_data model_id parent_collection st1.selected_objects

/-- ImportIIIF3DManifest.create_camera. -/
def create_camera (camera_data : JQ) (parent_collection : String) :
    PyM (BState ℚ) String := do
  let lbl ← camera_data.get ("label") (.obj [])
  let en ← lbl.get ("en") (.arr [.str ("Camera")])
  let nameV ← en.index0
  let nm ← nameV.expectStr
  let st ← PyM.getS
  let fresh := freshName (st.objs.map (fun o => o.name)) nm
  PyM.modifyS (fun st2 =>
    { st2 with objs := st2.objs ++ [{ name := fresh, objType := ("CAMERA") }] })
  PyM.modifyS (fun st2 =>
    st2.withColl parent_collection (fun c => { c with objs := c.objs ++ [fresh] }))
  let ctype ← camera_data.get ("type") .null
  if jEqStr ctype ("PerspectiveCamera") then do
    PyM.modifyS (fun st2 => st2.withObj fresh (fun ob =>
      { ob with camType := ("PERSP") }))
    let foVRaw ← camera_data.get ("fieldOfView") (.num 53)
    let (foV0, wf) := force_as_singleton foVRaw
    logAll ("warning") wf
    let foV1 : JQ ←
      match foV0 with
      | .null => pure JVal.null
      | v =>
          match pyFloat v with
          | .ok q => pure (.num q)
          | .error _ => do
              logE ("error") (.fovCastFailure v)
              pure v
    let foV2 := if JVal.truthy foV1 then foV1 else JVal.num 53
    match foV2 with
    | .num q =>
        PyM.modifyS (fun st2 => st2.withObj fresh (fun ob =>
          { ob with angle_y := radiansQ q, sensor_fit := ("VERTICAL") }))
    | _ => PyM.throw (.typeError ("radians"))
  pure fresh

/-- ImportIIIF3DManifest.get_annotation_bounds_center: objects whose
`annotation_id` custom property equals the given id; center of the
world-space bounding corners, `(0,0,0)` when there are none.  (Blender
always supplies eight `bound_box` corners per object, so the inner
empty case is unreachable.) -/
def bounds_center_for (annot_id : JQ) : PyM (BState ℚ) (ℚ × ℚ × ℚ) := do
  let st ← PyM.getS
  let matching := st.objs.filter (fun ob =>
    match PropVal.getIn ob.props ("annotation_id") with
    | some (.raw v) => JVal.beq v annot_id
    | _ => false)
  if matching.isEmpty then pure (0, 0, 0)
  else
    match (matching.map (fun ob => ob.world_corners)).flatten with
    | [] => pure (0, 0, 0)
    | c :: rest =>
        let mins := rest.foldl
          (fun acc p => (min acc.1 p.1, min acc.2.1 p.2.1, min acc.2.2 p.2.2)) c
        let maxs := rest.foldl
          (fun acc p => (max acc.1 p.1, max acc.2.1 p.2.1, max acc.2.2 p.2.2)) c
        pure ((mins.1 + maxs.1) / 2, (mins.2.1 + maxs.2.1) / 2,
              (mins.2.2 + maxs.2.2) / 2)

/-- ImportIIIF3DManifest.point_camera_at_target. -/
def point_camera_at_target (env : ImportEnv) (cam : String)
    (target_location : ℚ × ℚ × ℚ) : PyM (BState ℚ) Unit := do
  let loc ← objLocation cam
  let direction := subV3 target_location loc
  logE ("info") (.pointCameraFromTo loc target_location)
  let rot_quat := env.trackQuat direction
  logE ("info") (.lookAtDirection direction)
  PyM.modifyS (fun st => st.withObj cam (fun ob =>
    { ob with rotation_mode := ("QUATERNION"),
              rotation_quaternion := rot_quat }))

/-- ImportIIIF3DManifest.set_camera_target. -/
def set_camera_target (env : ImportEnv) (cam : String) (look_at_data : JQ) :
    PyM (BState ℚ) Unit := do
  let t ← look_at_data.get ("type") .null
  if jEqStr t ("PointSelector") then do
    let axes ← axes_named_values look_at_data
    let target_location := iiif_position_to_blender_vectorQ axes
    logE ("info") (.lookAtPoint target_location)
    point_camera_at_target env cam target_location
  else if jEqStr t ("Annotation") then do
    let target_id ← look_at_data.get ("id") .null
    if JVal.truthy target_id then do
      let center ← bounds_center_for target_id
      logE ("info") (.lookAtCenter center)
      point_camera_at_target env cam center

/-- ImportIIIF3DManifest.process_annotation_camera. -/
def process_annotation_camera (env : ImportEnv)
    (camera_data specific_resource_data annot_data : JQ)
    (parent_collection : String) : PyM (BState ℚ) Unit := do
  logE ("debug") (.specificResourcesData specific_resource_data)
  let cam_obj ← create_camera camera_data parent_collection
  store_annot (.obj cam_obj) annot_data
  let tRaw ← annot_data.get ("target") .null
  let (tSing, w1) := force_as_singleton tRaw
  logAll ("warning") w1
  let target_data ← PyM.ofExcept (force_as_object tSing (some ("Scene")))
  if JVal.truthy target_data then do
    let tty ← target_data.index ("type")
    if jEqStr tty ("SpecificResource") then do
      let sRaw ← target_data.get ("selector") .null
      let (selector_data, w2) := force_as_singleton sRaw
      logAll ("warning") w2
      if JVal.truthy selector_data then do
        let sty ← selector_data.index ("type")
        if jEqStr sty ("PointSelector") then do
          let iiif_pos ← axes_named_values selector_data
          let blender_vector := iiif_position_to_blender_vectorQ iiif_pos
          logE ("debug") (.placingModel iiif_pos)
          PyM.modifyS (fun st => st.withObj cam_obj (fun ob =>
            { ob with location := blender_vector }))
  let laRaw ← camera_data.get ("lookAt") .null
  let (look_at_data, w3) := force_as_singleton laRaw
  logAll ("warning") w3
  let tdRaw ←
    (if JVal.truthy specific_resource_data then
        specific_resource_data.get ("transform") .null
      else pure specific_resource_data)
  let transform_data := force_as_list tdRaw
  let ts ← transform_data.iter
  let laIsNone := match look_at_data with | .null => true | _ => false
  if laIsNone && ts.isEmpty then
    logE ("warning") (.cameraNoOrientation)
  if !laIsNone && ts.length > 0 then
    logE ("warning") (.cameraAmbiguousOrientation)
  if JVal.truthy look_at_data then
    set_camera_target env cam_obj look_at_data
  else if !ts.isEmpty then do
    let singleRotate ←
      (match ts with
        | [t0] => do
            let ty ← t0.get ("type") .null
            pure (jEqStr ty ("RotateTransform"))
        | _ => pure false)
    if !singleRotate then do
      logE ("error") (.unsupportedTransforms transform_data)
      return
    match ts with
    | rotation_data :: _ => do
        let iiif_angles ← axes_named_values rotation_data
        let blender_euler := camera_transform_angles_to_blender_eulerQ iiif_angles
        logE ("debug") (.implementRotation iiif_angles)
        PyM.modifyS (fun st => st.withObj cam_obj (fun ob =>
          { ob with rotation_mode := blender_euler.order,
                    rotation_euler := blender_euler }))
    | [] => pure ()
  let aid ← annot_data.get ("id") .null
  setPropOn (.obj cam_obj) ("annotation_id") (.raw aid)
  let cid ← camera_data.get ("id") .null
  setPropOn (.obj cam_obj) ("iiif_source_url") (.raw cid)

/-- ImportIIIF3DManifest.get_blender_light_type (dictionary lookup with
default "POINT"; unhashable keys raise `TypeError`). -/
def get_blender_light_type (iiif_light_type : JQ) : PyM (BState ℚ) String :=
  match iiif_light_type with
  | .str s =>
      pure (if s == ("AmbientLight") then ("POINT")
            else if s == ("DirectionalLight") then ("SUN")
            else ("POINT"))
  | .arr _ => PyM.throw (.typeError ("unhashable type"))
  | .obj _ => PyM.throw (.typeError ("unhashable type"))
  | _ => pure ("POINT")

/-- ImportIIIF3DManifest.process_annotation_light. -/
def process_annotation_light (annot_data : JQ) (parent_collection : String) :
    PyM (BState ℚ) Unit := do
  let body ← annot_data.get ("body") (.obj [])
  let light_type ← body.get ("type") .null
  let lbl ← body.get ("label") (.obj [])
  let en ← lbl.get ("en") (.arr [.str ("Light")])
  let light_nameV ← en.index0
  let bt ← get_blender_light_type light_type
  let nm ← light_nameV.expectStr
  let st ← PyM.getS
  let fresh := freshName (st.objs.map (fun o => o.name)) nm
  PyM.modifyS (fun st2 =>
    { st2 with objs := st2.objs ++
        [{ name := fresh, objType := ("LIGHT"), lightType := bt }] })
  PyM.modifyS (fun st2 =>
    st2.withColl parent_collection (fun c => { c with objs := c.objs ++ [fresh] }))
  let aid ← annot_data.get ("id") .null
  setPropOn (.obj fresh) ("original_annotation_id") (.raw aid)
  let bid ← body.get ("id") .null
  setPropOn (.obj fresh) ("original_body_id") (.raw bid)
  if ← annot_data.hasKey ("target") then do
    let tv ← annot_data.index ("target")
    setPropOn (.obj fresh) ("original_target") (.jsonDump tv)
  if ← body.hasKey ("lookAt") then do
    let look_at_data ← body.index ("lookAt")
    setPropOn (.obj fresh) ("original_lookAt") (.jsonDump look_at_data)
    let lt ← look_at_data.get ("type") .null
    if jEqStr lt ("Annotation") then do
      let lid ← look_at_data.get ("id") (.str (""))
      setPropOn (.obj fresh) ("lookAt_annotation_id") (.raw lid)
  if ← body.hasKey ("color") then do
    let cv ← body.index ("color")
    match cv with
    | .str cs => do
        let rgba ← PyM.ofExcept (hex_to_rgba cs)
        PyM.modifyS (fun st2 => st2.withObj fresh (fun ob =>
          { ob with lightColor := (rgba.1, rgba.2.1, rgba.2.2.1) }))
        setPropOn (.obj fresh) ("original_color") (.raw cv)
    | _ => PyM.throw (.attributeError ("lstrip"))
  if ← body.hasKey ("intensity") then do
    let iv ← body.index ("intensity")
    match iv with
    | .obj _ => do
        let vv ← iv.get ("value") (.num 1)
        let q ← PyM.ofExcept (pyFloat vv)
        PyM.modifyS (fun st2 => st2.withObj fresh (fun ob =>
          { ob with lightEnergy := q }))
        setPropOn (.obj fresh) ("original_intensity") (.jsonDump iv)
    | _ => pure ()
  store_annot (.obj fresh) annot_data

/-- ImportIIIF3DManifest.process_annotation_specific_resource.  The
final fallback branch of the source assigns the undefined name `source`
(`light_annotation["body"] = source`), raising `NameError`. -/
def process_annotation_specific_resource (env : ImportEnv)
    (annot_data : JQ) (parent_collection : String) : PyM (BState ℚ) Unit := do
  let bRaw ← annot_data.get ("body") .null
  let (specific_resource_data, w1) := force_as_singleton bRaw
  logAll ("warning") w1
  match specific_resource_data with
  | .null => logE ("error") (.specificResourceNone)
  | _ => do
    let sRaw ← specific_resource_data.get ("source") .null
    let (srcS, w2) := force_as_singleton sRaw
    logAll ("warning") w2
    let source_data ← PyM.ofExcept (force_as_object srcS (some ("Mpdel")))
    match source_data with
    | .null => logE ("error") (.specificSourceNone)
    | _ => do
      let sty ← source_data.index ("type")
      if jEqStr sty ("PerspectiveCamera") || jEqStr sty ("OrthographicCamera") then
        process_annotation_camera env source_data specific_resource_data
          annot_data parent_collection
      else if jEqStr sty ("Model") then
        process_annotation_model env source_data specific_resource_data
          annot_data parent_collection
      else
        PyM.throw (.nameError ("source"))

/-- ImportIIIF3DManifest.process_annotation (body dispatch). -/
def process_annot (env : ImportEnv) (annot_data : JQ)
    (parent_collection : String) : PyM (BState ℚ) Unit := do
  let bRaw ← annot_data.get ("body") .null
  let (bSing, w1) := force_as_singleton bRaw
  logAll ("warning") w1
  let body0 ← PyM.ofExcept (force_as_object bSing (some ("Model")))
  let body ←
    match body0 with
    | .null => do
        let bvRaw ← annot_data.get ("bodyValue") .null
        let (bodyValue, w2) := force_as_singleton bvRaw
        logAll ("warning") w2
        match bodyValue with
        | .str s =>
            pure (some (JVal.obj
              [(("type"), JVal.str ("TextualBody")), (("value"), JVal.str s)]))
        | _ => do
            let aid ← annot_data.index ("id")
            logE ("warning") (.noBodyProp aid)
            pure none
    | b => pure (some b)
  match body with
  | none => pure ()
  | some b => do
      let bty ← b.index ("type")
      if jEqStr bty ("Model") then
        process_annotation_model env b .null annot_data parent_collection
      else if jEqStr bty ("PerspectiveCamera") then
        process_annotation_camera env b .null annot_data parent_collection
      else if jEqStr bty ("AmbientLight") || jEqStr bty ("DirectionalLight") then
        process_annotation_light annot_data parent_collection
      else if jEqStr bty ("SpecificResource") then
        process_annotation_specific_resource env annot_data parent_collection
      else
        logE ("warning") (.bodyTypeUnsupported bty)

/-- ImportIIIF3DManifest.create_or_get_collection. -/
def create_or_get_collection (name : JQ) (parent : Option String) :
    PyM (BState ℚ) String := do
  let st ← PyM.getS
  match name with
  | .str s =>
      if (st.findColl s).isSome then pure s
      else do
        PyM.modifyS (fun st2 =>
          { st2 with collections := st2.collections ++ [{ name := s }] })
        (match parent with
          | some p => PyM.modifyS (fun st2 =>
              st2.withColl p (fun c => { c with children := c.children ++ [s] }))
          | none => PyM.modifyS (fun st2 =>
              { st2 with rootChildren := st2.rootChildren ++ [s] }))
        pure s
  | _ => PyM.throw (.typeError ("collections.new expects str"))

/-- ImportIIIF3DManifest.get_iiif_id_or_label. -/
def get_iiif_id_or_label (data : JQ) : PyM (BState ℚ) JQ := do
  let iiif_id ← data.get ("id") (.str ("Unnamed ID"))
  let lbl ← data.get ("label") (.obj [])
  let en ← lbl.get ("en") (.arr [iiif_id])
  en.index0

/-- Item loop of process_annotation_page. -/
def pageItems (env : ImportEnv) (page_collection : String) :
    List JQ → PyM (BState ℚ) Unit
  | [] => pure ()
  | item :: rest => do
      let t ← item.get ("type") .null
      if jEqStr t ("Annotation") then
        process_annot env item page_collection
      else
        report ("WARNING") (.unknownItemType t)
      pageItems env page_collection rest

/-- ImportIIIF3DManifest.process_annotation_page. -/
def process_annotation_page (env : ImportEnv) (page_data : JQ)
    (scene_collection : String) : PyM (BState ℚ) Unit := do
  let nm ← get_iiif_id_or_label page_data
  let page_collection ← create_or_get_collection nm (some scene_collection)
  let itemsV ← page_data.get ("items") (.arr [])
  let items ← itemsV.iter
  pageItems env page_collection items

/-- Item loop of process_scene. -/
def sceneItems (env : ImportEnv) (scene_collection : String) :
    List JQ → PyM (BState ℚ) Unit
  | [] => pure ()
  | item :: rest => do
      let t ← item.get ("type") .null
      if jEqStr t ("AnnotationPage") then
        process_annotation_page env item scene_collection
      else if jEqStr t ("Annotation") then
        process_annot env item scene_collection
      else
        report ("WARNING") (.unknownItemType t)
      sceneItems env scene_collection rest

/-- ImportIIIF3DManifest.process_scene. -/
def process_scene (env : ImportEnv) (scene_data : JQ)
    (manifest_collection : String) : PyM (BState ℚ) Unit := do
  let nm ← get_iiif_id_or_label scene_data
  let scene_collection ← create_or_get_collection nm (some manifest_collection)
  if !env.contextPresent then do
    report ("ERROR") (.noActiveContext)
    return
  store_scene (.coll scene_collection) scene_data
  if ← scene_data.hasKey ("backgroundColor") then do
    let bc ← scene_data.index ("backgroundColor")
    report ("DEBUG") (.settingBackground bc)
    PyM.tryCatch
      (do
        let st ← PyM.getS
        match st.world with
        | none => PyM.throw (.attributeError ("NoneType has no use_nodes"))
        | some w => do
            PyM.modifyS (fun st2 => { st2 with world := some { w with use_nodes := true } })
            match bc with
            | .str cs => do
                let rgba ← PyM.ofExcept (hex_to_rgba cs)
                PyM.modifyS (fun st2 =>
                  { st2 with world := some { w with use_nodes := true, background := rgba } })
            | _ => PyM.throw (.attributeError ("lstrip")))
      (fun _ => report ("ERROR") (.errorBackground))
  let itemsV ← scene_data.get ("items") (.arr [])
  let items ← itemsV.iter
  sceneItems env scene_collection items

/-- The Scene-collecting loop of process_manifest: accumulate items of
type "Scene", reporting a warning for every other item. -/
def collectScenes : List JQ → PyM (BState ℚ) (List JQ)
  | [] => pure []
  | item :: rest => do
      let t ← item.get ("type") .null
      if jEqStr t ("Scene") then do
        let tail ← collectScenes rest
        pure (item :: tail)
      else do
        report ("WARNING") (.unknownItemType t)
        collectScenes rest

/-- Scene loop of process_manifest. -/
def scenesLoop (env : ImportEnv) (main_collection : String) :
    List JQ → PyM (BState ℚ) Unit
  | [] => pure ()
  | scene :: rest => do
      process_scene env scene main_collection
      scenesLoop env main_collection rest

/-- ImportIIIF3DManifest.process_manifest. -/
def process_manifest (env : ImportEnv) (manifest_data : JQ) :
    PyM (BState ℚ) Unit := do
  let main_collection ← create_or_get_collection (.str ("IIIF Manifest")) none
  store_manifest env.nowIso (.coll main_collection) manifest_data
  let itemsV ← manifest_data.get ("items") (.arr [])
  let items ← itemsV.iter
  let scenes ← collectScenes items
  if scenes.length == 0 then do
    report ("ERROR") (.noScenes)
    return
  scenesLoop env main_collection scenes
  if !env.contextPresent then
    return
  let idv ← manifest_data.get ("id") (.str (""))
  setSceneProp ("iiif_manifest_id") idv
  let lbl ← manifest_data.get ("label") (.obj [])
  let en ← lbl.get ("en") (.arr [.str ("")])
  let l0 ← en.index0
  setSceneProp ("iiif_manifest_label") l0
  let smry ← manifest_data.get ("summary") (.obj [])
  let en2 ← smry.get ("en") (.arr [.str ("")])
  let s0 ← en2.index0
  setSceneProp ("iiif_manifest_summary") s0

/-- ImportIIIF3DManifest.execute: reads and parses the manifest file,
runs process_manifest, and catches every exception, reporting it and
returning CANCELLED; otherwise FINISHED. -/
def importer_execute (env : ImportEnv) (filepath : String) :
    PyM (BState ℚ) OpResult :=
  PyM.tryCatch
    (do
      match env.readFile filepath with
      | none => PyM.throw (.valueError ("Expecting value"))
      | some manifest_data => do
          report ("DEBUG") (.successRead filepath)
          report ("DEBUG") (.manifestData)
          process_manifest env manifest_data
          report ("DEBUG") (.successImported filepath)
          pure OpResult.FINISHED)
    (fun _e => do
      report ("ERROR") (.errorReadingManifest)
      pure OpResult.CANCELLED)

/-! ## Importer test environments and evaluation lemmas -/

/-- Pointwise behavior of `bind` in `PyM`. -/
theorem PyM.bind_apply (m : PyM σ β) (f : β → PyM σ γ) (s : σ) :
    (m >>= f) s =
      (match m s with
       | (Except.ok a, s1) => f a s1
       | (Except.error e, s1) => (Except.error e, s1)) := rfl

/-- Pointwise behavior of `pure` in `PyM`. -/
theorem PyM.pure_apply (x : β) (s : σ) :
    (pure x : PyM σ β) s = (Except.ok x, s) := rfl

/-- Reading a key from an object with `.get`. -/
theorem JVal.get_obj (fs : List (String × JVal α)) (key : String)
    (d : JVal α) (s : σ) :
    (JVal.get (.obj fs) key d : PyM σ (JVal α)) s =
      (Except.ok ((JVal.lookup fs key).getD d), s) := by
  simp only [JVal.get]
  cases JVal.lookup fs key <;> rfl

/-- A concrete instantiation of the external glTF importer: the decoded
file yields one object (default transform), registered as active and as
the selection, attached to no collection yet. -/
def gltfStub (filepath : String) (st : BState ℚ) : BState ℚ :=
  let nm := freshName (st.objs.map (fun o => o.name)) (osBasename filepath)
  { st with objs := st.objs ++ [{ name := nm }],
            active_object := some nm, selected_objects := [nm] }

/-- A manifest with an `items` list containing no Scene. -/
def manifestNoScenes : JQ :=
  .obj [(("id"), .str ("https://ex/m")), (("type"), .str ("Manifest")),
        (("items"), .arr [])]

/-- Import environment whose manifest file parses to
`manifestNoScenes`. -/
def envNoScenes : ImportEnv := {
  tempdir := ("/tmp"), timeString := ("t0"), nowIso := ("d0"),
  fetchOk := fun _ => true, importGltf := gltfStub,
  trackQuat := fun _ => ⟨1, 0, 0, 0⟩,
  readFile := fun _ => some manifestNoScenes }

/-- A Model annotation with a bare string Scene target. -/
def modelAnno (aid url : String) : JQ :=
  .obj [(("id"), .str aid), (("type"), .str ("Annotation")),
        (("body"), .obj [(("id"), .str url), (("type"), .str ("Model"))]),
        (("target"), .str ("https://ex/s1"))]

/-- A manifest with one Scene holding one AnnotationPage with two Model
annotations. -/
def manifestTwoModels : JQ :=
  .obj [(("id"), .str ("m1")), (("type"), .str ("Manifest")),
        (("items"), .arr [
          .obj [(("id"), .str ("s1")), (("type"), .str ("Scene")),
                (("items"), .arr [
                  .obj [(("id"), .str ("p1")), (("type"), .str ("AnnotationPage")),
                        (("items"), .arr [modelAnno ("a1") ("https://x/m1.glb"),
                                          modelAnno ("a2") ("https://x/m2.glb")])]])]])]

/-- Environment for `manifestTwoModels` in which fetching the first
model's asset fails and the second would succeed. -/
def envFirstFetchFails : ImportEnv := {
  tempdir := ("/tmp"), timeString := ("t0"), nowIso := ("d0"),
  fetchOk := fun u => u != ("https://x/m1.glb"), importGltf := gltfStub,
  trackQuat := fun _ => ⟨1, 0, 0, 0⟩,
  readFile := fun _ => some manifestTwoModels }

/-- The same environment with all fetches succeeding. -/
def envAllFetchOk : ImportEnv :=
  { envFirstFetchFails with fetchOk := fun _ => true }

/-- An annotation whose body wraps a Model in a SpecificResource with
one ScaleTransform. -/
def scaleAnno (sx sy sz : ℚ) : JQ :=
  .obj [(("id"), .str ("a1")), (("type"), .str ("Annotation")),
        (("body"), .obj [(("type"), .str ("SpecificResource")),
          (("source"), .obj [(("id"), .str ("https://x/m1.glb")),
                             (("type"), .str ("Model"))]),
          (("transform"), .arr [.obj [(("type"), .str ("ScaleTransform")),
            (("x"), .num sx), (("y"), .num sy), (("z"), .num sz)]])]),
        (("target"), .str ("https://ex/s1"))]

/-- A one-scene manifest around `scaleAnno`. -/
def scaleManifest (sx sy sz : ℚ) : JQ :=
  .obj [(("id"), .str ("m1")), (("type"), .str ("Manifest")),
        (("items"), .arr [
          .obj [(("id"), .str ("s1")), (("type"), .str ("Scene")),
                (("items"), .arr [scaleAnno sx sy sz])]])]

/-- Environment whose manifest file parses to `scaleManifest`. -/
def envScale (sx sy sz : ℚ) : ImportEnv := {
  tempdir := ("/tmp"), timeString := ("t0"), nowIso := ("d0"),
  fetchOk := fun _ => true, importGltf := gltfStub,
  trackQuat := fun _ => ⟨1, 0, 0, 0⟩,
  readFile := fun _ => some (scaleManifest sx sy sz) }

/-- An item that is a JSON object whose `type` is not "Scene". -/
def isNonSceneItem (x : JQ) : Prop :=
  ∃ fs, x = .obj fs ∧
    jEqStr ((JVal.lookup fs ("type")).getD .null) ("Scene") = false

/-- The `type` an item presents to the Scene filter. -/
def itemTypeD (x : JQ) : JQ :=
  match x with
  | .obj fs => (JVal.lookup fs ("type")).getD .null
  | _ => .null

/-- collectScenes on a list without Scene items: no scene collected,
one WARNING report per item. -/
theorem collectScenes_none (xs : List JQ) (h : ∀ x ∈ xs, isNonSceneItem x)
    (st : BState ℚ) :
    collectScenes xs st =
      (Except.ok [],
        { st with reports := st.reports ++
            xs.map (fun x => (("WARNING"), RepMsg.unknownItemType (itemTypeD x))) }) := by
  induction xs generalizing st with
  | nil => simp [collectScenes, PyM.pure_apply]
  | cons x rest ih =>
      have hrest : ∀ y ∈ rest, isNonSceneItem y := fun y hy =>
        h y (List.mem_cons_of_mem x hy)
      obtain ⟨fs, rfl, hty⟩ := h x (List.mem_cons_self x rest)
      simp [collectScenes, PyM.bind_apply, JVal.get_obj, hty, report,
        PyM.modifyS, ih hrest, itemTypeD]

/-- The "IIIF Manifest" container collection as `process_manifest`
leaves it when the manifest (a parsed object with fields `fs`) has no
Scene items. -/
def noScenesColl (env : ImportEnv) (fs : List (String × JQ)) : BCollection ℚ :=
  { name := ("IIIF Manifest"),
    props := [(("iiif_manifest"), .jsonDump (.obj fs)),
              (("iiif_import_date"), .str env.nowIso),
              (("iiif_type"), .str ("Manifest")),
              (("iiif_id"),
               .raw ((JVal.lookup fs ("id")).getD (.str ("not_supplied"))))] }

/-- The final Blender state of a zero-Scene import from a fresh
session. -/
def noScenesState (env : ImportEnv) (fp : String)
    (fs : List (String × JQ)) (xs : List JQ) : BState ℚ :=
  { collections := [noScenesColl env fs],
    rootChildren := [("IIIF Manifest")],
    reports := [(("DEBUG"), .successRead fp), (("DEBUG"), .manifestData)] ++
      xs.map (fun x => (("WARNING"), RepMsg.unknownItemType (itemTypeD x))) ++
      [(("ERROR"), .noScenes), (("DEBUG"), .successImported fp)] }

/-- Full run of `importer_execute` on a parsed manifest object without
Scene items, from a fresh Blender state: the "IIIF Manifest" container
is created and filled with metadata, every item draws a WARNING, the
scene-count check reports an ERROR and aborts `process_manifest`, and
the operator still finishes with FINISHED. -/
theorem importer_execute_noScenes (env : ImportEnv) (fp : String)
    (fs : List (String × JQ)) (xs : List JQ)
    (henv : env.readFile fp = some (.obj fs))
    (hitems : (JVal.lookup fs ("items")).getD (.arr []) = .arr xs)
    (h : ∀ x ∈ xs, isNonSceneItem x) :
    importer_execute env fp {} =
      (Except.ok OpResult.FINISHED, noScenesState env fp fs xs) := by
  simp [importer_execute, PyM.tryCatch, henv, PyM.bind_apply, PyM.pure_apply,
    process_manifest, create_or_get_collection, store_manifest, report, logE,
    PyM.getS, PyM.modifyS, PyM.throw, setPropOn, BState.withColl,
    BState.findColl, PropVal.setIn, JVal.get_obj, JVal.iter, hitems,
    collectScenes_none xs h, noScenesState, noScenesColl]

/-! ## Claims C4, C5, C8, C9, C10 -/

set_option maxHeartbeats 1000000 in
/-- C4 counterexample: importing `manifestNoScenes` (zero Scene
entries) reports the "No scenes found in manifest" ERROR and creates no
Scene content, but the top-level `execute` returns FINISHED — the
success result, not a non-success result. -/
theorem noScenes_execute_finishes :
    (importer_execute envNoScenes ("/m.json")).res {} =
      Except.ok OpResult.FINISHED ∧
    OpResult.FINISHED ≠ OpResult.CANCELLED ∧
    ((importer_execute envNoScenes ("/m.json")).fin {}).reports =
      [(("DEBUG"), .successRead ("/m.json")), (("DEBUG"), .manifestData),
       (("ERROR"), .noScenes), (("DEBUG"), .successImported ("/m.json"))] ∧
    (((importer_execute envNoScenes ("/m.json")).fin {}).collections.map
      (fun c => c.name)) = [("IIIF Manifest")] := by
  exact ⟨rfl, by decide, rfl, rfl⟩

/-- C4 (amended): for every manifest that parses to an object whose
items contain no Scene, the import is aborted (an ERROR report is
issued, no Scene content is created) but `execute` nevertheless returns
FINISHED; the abort is not surfaced as a non-success result. -/
theorem noScenes_abort_reported_but_finished (env : ImportEnv) (fp : String)
    (fs : List (String × JQ)) (xs : List JQ)
    (henv : env.readFile fp = some (.obj fs))
    (hitems : (JVal.lookup fs ("items")).getD (.arr []) = .arr xs)
    (h : ∀ x ∈ xs, isNonSceneItem x) :
    (importer_execute env fp).res {} = Except.ok OpResult.FINISHED ∧
    (("ERROR"), RepMsg.noScenes) ∈ ((importer_execute env fp).fin {}).reports ∧
    (((importer_execute env fp).fin {}).collections.map (fun c => c.name)) =
      [("IIIF Manifest")] ∧
    ((importer_execute env fp).fin {}).objs = [] := by
  have hrun := importer_execute_noScenes env fp fs xs henv hitems h
  refine ⟨?_, ?_, ?_, ?_⟩ <;>
    simp [PyM.res, PyM.fin, hrun, noScenesState, noScenesColl]

/-- Closed witness for `noScenes_abort_reported_but_finished` at the
concrete `envNoScenes` fixture. -/
theorem noScenes_abort_reported_but_finished_witness :
    envNoScenes.readFile ("/m.json") = some (.obj
      [(("id"), .str ("https://ex/m")), (("type"), .str ("Manifest")),
       (("items"), .arr [])]) ∧
    (importer_execute envNoScenes ("/m.json")).res {} =
      Except.ok OpResult.FINISHED := by
  refine ⟨rfl, ?_⟩
  exact (noScenes_abort_reported_but_finished envNoScenes ("/m.json")
    [(("id"), .str ("https://ex/m")), (("type"), .str ("Manifest")),
     (("items"), .arr [])] [] rfl rfl (by simp)).1

/-- C10: after a zero-Scene import aborts, the "IIIF Manifest"
container created before the scene-count validation persists, carrying
the full manifest JSON under ``iiif_manifest`` together with
``iiif_type`` and ``iiif_id``: the failed import is not atomic. -/
theorem manifest_container_persists (env : ImportEnv) (fp : String)
    (fs : List (String × JQ)) (xs : List JQ)
    (henv : env.readFile fp = some (.obj fs))
    (hitems : (JVal.lookup fs ("items")).getD (.arr []) = .arr xs)
    (h : ∀ x ∈ xs, isNonSceneItem x) :
    (("ERROR"), RepMsg.noScenes) ∈ ((importer_execute env fp).fin {}).reports ∧
    ((importer_execute env fp).fin {}).findColl ("IIIF Manifest") =
      some (noScenesColl env fs) ∧
    PropVal.getIn (noScenesColl env fs).props ("iiif_manifest") =
      some (.jsonDump (.obj fs)) ∧
    PropVal.getIn (noScenesColl env fs).props ("iiif_type") =
      some (.str ("Manifest")) ∧
    PropVal.getIn (noScenesColl env fs).props ("iiif_id") =
      some (.raw ((JVal.lookup fs ("id")).getD (.str ("not_supplied")))) := by
  have hrun := importer_execute_noScenes env fp fs xs henv hitems h
  refine ⟨?_, ?_, rfl, rfl, rfl⟩ <;>
    simp [PyM.fin, hrun, noScenesState, noScenesColl, BState.findColl,
      PropVal.getIn]

/-- A manifest whose only item is a (non-Scene) Canvas. -/
def manifestOneCanvasFields : List (String × JQ) :=
  [(("id"), .str ("https://ex/m2")), (("type"), .str ("Manifest")),
   (("items"), .arr [.obj [(("id"), .str ("c1")), (("type"), .str ("Canvas"))]])]

/-- Environment whose manifest file parses to the one-Canvas
manifest. -/
def envOneCanvas : ImportEnv := {
  tempdir := ("/tmp"), timeString := ("t0"), nowIso := ("d0"),
  fetchOk := fun _ => true, importGltf := gltfStub,
  trackQuat := fun _ => ⟨1, 0, 0, 0⟩,
  readFile := fun _ => some (.obj manifestOneCanvasFields) }

/-- Closed witness for `manifest_container_persists` on the one-Canvas
manifest. -/
theorem manifest_container_persists_witness :
    envOneCanvas.readFile ("/m.json") = some (.obj manifestOneCanvasFields) ∧
    ((importer_execute envOneCanvas ("/m.json")).fin {}).findColl
      ("IIIF Manifest") = some (noScenesColl envOneCanvas manifestOneCanvasFields) := by
  have h : ∀ x ∈ [JVal.obj [(("id"), JVal.str ("c1")), (("type"), JVal.str ("Canvas"))]],
      isNonSceneItem x := by
    intro x hx
    simp only [List.mem_singleton] at hx
    subst hx
    exact ⟨_, rfl, rfl⟩
  refine ⟨rfl, ?_⟩
  exact (manifest_container_persists envOneCanvas ("/m.json")
    manifestOneCanvasFields [.obj [(("id"), .str ("c1")), (("type"), .str ("Canvas"))]]
    rfl rfl h).2.1

set_option maxHeartbeats 1000000 in
/-- C5 counterexample: in `manifestTwoModels`, the failed fetch for the
first Model annotation is not caught at annotation granularity — no node
at all is created, the sibling annotation is never reached (the report
trail ends at the first download error), and `execute` returns
CANCELLED instead of succeeding. -/
theorem fetch_failure_cancels_import :
    (importer_execute envFirstFetchFails ("/m.json")).res {} =
      Except.ok OpResult.CANCELLED ∧
    ((importer_execute envFirstFetchFails ("/m.json")).fin {}).objs = [] ∧
    ((importer_execute envFirstFetchFails ("/m.json")).fin {}).reports =
      [(("DEBUG"), .successRead ("/m.json")), (("DEBUG"), .manifestData),
       (("DEBUG"), .processingModel (.str ("https://x/m1.glb"))),
       (("DEBUG"), .downloadingModel ("https://x/m1.glb")
          ("/tmp/temp_model_t0_m1.glb.glb")),
       (("ERROR"), .errorDownloading ("https://x/m1.glb")),
       (("ERROR"), .errorReadingManifest)] := by
  exact ⟨rfl, rfl, rfl⟩

set_option maxHeartbeats 2000000 in
/-- C5 (amended): a single asset-fetch failure propagates out of every
traversal loop.  `download_model` reports the error and re-raises;
nothing below `execute` catches it, so the sibling annotation is never
processed and `execute` returns CANCELLED, while the collections already
created persist.  With all fetches succeeding the same manifest imports
both models and finishes. -/
theorem fetch_failure_aborts_whole_import :
    (importer_execute envFirstFetchFails ("/m.json")).res {} =
      Except.ok OpResult.CANCELLED ∧
    ((importer_execute envFirstFetchFails ("/m.json")).fin {}).objs = [] ∧
    ((("DEBUG"), RepMsg.processingModel (.str ("https://x/m2.glb"))) ∉
      ((importer_execute envFirstFetchFails ("/m.json")).fin {}).reports) ∧
    (((importer_execute envFirstFetchFails ("/m.json")).fin {}).collections.map
      (fun c => c.name)) = [("IIIF Manifest"), ("s1"), ("p1")] ∧
    (importer_execute envAllFetchOk ("/m.json")).res {} =
      Except.ok OpResult.FINISHED ∧
    (((importer_execute envAllFetchOk ("/m.json")).fin {}).objs.map
      (fun o => o.name)) =
      [("temp_model_t0_m1.glb.glb"), ("temp_model_t0_m2.glb.glb")] := by
  refine ⟨rfl, rfl, ?_, rfl, rfl, rfl⟩
  have hrep : ((importer_execute envFirstFetchFails ("/m.json")).fin {}).reports =
      [(("DEBUG"), .successRead ("/m.json")), (("DEBUG"), .manifestData),
       (("DEBUG"), .processingModel (.str ("https://x/m1.glb"))),
       (("DEBUG"), .downloadingModel ("https://x/m1.glb")
          ("/tmp/temp_model_t0_m1.glb.glb")),
       (("ERROR"), .errorDownloading ("https://x/m1.glb")),
       (("ERROR"), .errorReadingManifest)] := rfl
  rw [hrep]
  simp

/-- C8: force_as_singleton maps None/[] to None, `[x]` to `x`, longer
lists to their head with a warning recording the ignored elements, and
non-list values to themselves; hence `force_as_singleton ∘
force_as_list` agrees with `force_as_singleton` on non-list non-None
values. -/
theorem force_as_singleton_spec :
    force_as_singleton (JVal.null : JQ) = (JVal.null, []) ∧
    force_as_singleton (JVal.arr ([] : List JQ)) = (JVal.null, []) ∧
    (∀ x : JQ, force_as_singleton (.arr [x]) = (x, [])) ∧
    (∀ (x : JQ) (xs : List JQ), xs ≠ [] →
      force_as_singleton (.arr (x :: xs)) =
        (x, [.coercedToSingleton (xs.length + 1)])) ∧
    (∀ v : JQ, (∀ ys, v ≠ .arr ys) → force_as_singleton v = (v, [])) ∧
    (∀ v : JQ, (∀ ys, v ≠ .arr ys) → v ≠ .null →
      (force_as_singleton (force_as_list v)).1 = (force_as_singleton v).1) := by
  refine ⟨rfl, rfl, fun x => rfl, ?_, ?_, ?_⟩
  · intro x xs hxs
    cases xs with
    | nil => exact absurd rfl hxs
    | cons y ys => rfl
  · intro v hv
    cases v with
    | arr ys => exact absurd rfl (hv ys)
    | null => rfl
    | bool b => rfl
    | num q => rfl
    | str s => rfl
    | obj fs => rfl
  · intro v hv hn
    cases v with
    | arr ys => exact absurd rfl (hv ys)
    | null => exact absurd rfl hn
    | bool b => rfl
    | num q => rfl
    | str s => rfl
    | obj fs => rfl

/-- Closed witness for `force_as_singleton_spec`: the two-element list
case and the list/singleton agreement at concrete values. -/
theorem force_as_singleton_spec_witness :
    ([JVal.num (2 : ℚ)] ≠ ([] : List JQ)) ∧
    force_as_singleton (JVal.arr [JVal.num (1 : ℚ), JVal.num 2]) =
      (JVal.num 1, [.coercedToSingleton 2]) ∧
    (force_as_singleton (force_as_list (JVal.str ("a") : JQ))).1 =
      (force_as_singleton (JVal.str ("a") : JQ)).1 := by
  refine ⟨by simp, ?_, ?_⟩
  · exact force_as_singleton_spec.2.2.2.1 (JVal.num 1) [JVal.num 2] (by simp)
  · exact force_as_singleton_spec.2.2.2.2.2 (JVal.str ("a"))
      (by intro ys h; cases h) (by intro h; cases h)

/-- A state holding one page collection linked at the view-layer root,
as `process_annotation_page` leaves it for a fresh page. -/
def pageState : BState ℚ :=
  { collections := [{ name := ("page") }], rootChildren := [("page")] }

/-- Environment for direct `process_annotation_model` runs: all fetches
succeed and glTF decoding is `gltfStub`. -/
def envFetchAll : ImportEnv := {
  tempdir := ("/tmp"), timeString := ("t0"), nowIso := ("d0"),
  fetchOk := fun _ => true, importGltf := gltfStub,
  trackQuat := fun _ => ⟨1, 0, 0, 0⟩,
  readFile := fun _ => none }

/-- The Model source resource of the ScaleTransform fixtures. -/
def modelSource : JQ :=
  .obj [(("id"), .str ("https://x/m1.glb")), (("type"), .str ("Model"))]

/-- A SpecificResource wrapping `modelSource` with one
ScaleTransform. -/
def scaleWrap (sx sy sz : ℚ) : JQ :=
  .obj [(("type"), .str ("SpecificResource")),
        (("source"), modelSource),
        (("transform"), .arr [.obj [(("type"), .str ("ScaleTransform")),
          (("x"), .num sx), (("y"), .num sy), (("z"), .num sz)]])]

/-- The annotation around `scaleWrap` with a bare Scene target. -/
def scaleAnnotData (sx sy sz : ℚ) : JQ :=
  .obj [(("id"), .str ("a1")), (("type"), .str ("Annotation")),
        (("body"), scaleWrap sx sy sz),
        (("target"), .str ("https://ex/s1"))]

/-- The `process_annotation_model` run on the ScaleTransform fixture. -/
def scaleRun (sx sy sz : ℚ) : Except PyErr Unit × BState ℚ :=
  process_annotation_model envFetchAll modelSource (scaleWrap sx sy sz)
    (scaleAnnotData sx sy sz) ("page") pageState

set_option maxHeartbeats 1000000 in
set_option maxRecDepth 8192 in
/-- C9: importing a Model wrapped in a SpecificResource with a
ScaleTransform: through the full import pipeline, `{x:2,y:3,z:2}`
leaves the created node scale at (1,1,1) with the non-uniform warning
logged; and in general (at the `process_annotation_model` call the
importer makes for such an annotation) non-uniform components or a
non-positive uniform value leave the scale at (1,1,1) with a warning
logged, while a uniform strictly positive value is applied with the
same numeric value and no warning. -/
theorem scale_transform_handling :
    ((((importer_execute (envScale 2 3 2) ("/m.json")).fin {}).objs.map
        (fun o => o.scale)) = [(1, 1, 1)] ∧
      ((importer_execute (envScale 2 3 2) ("/m.json")).fin {}).logs.filter
        (fun l => l.1 == ("warning")) =
        [(("warning"), .nonUniformScale (2, 3, 2))]) ∧
    (∀ sx sy sz : ℚ, ¬ (sx = sy ∧ sy = sz) →
      ((scaleRun sx sy sz).2.objs.map (fun o => o.scale)) = [(1, 1, 1)] ∧
      (scaleRun sx sy sz).2.logs.filter (fun l => l.1 == ("warning")) =
        [(("warning"), .nonUniformScale (sx, sy, sz))]) ∧
    (∀ s : ℚ, s ≤ 0 →
      ((scaleRun s s s).2.objs.map (fun o => o.scale)) = [(1, 1, 1)] ∧
      (scaleRun s s s).2.logs.filter (fun l => l.1 == ("warning")) =
        [(("warning"), .nonPositiveScale s)]) ∧
    (∀ s : ℚ, 0 < s →
      ((scaleRun s s s).2.objs.map (fun o => o.scale)) = [(s, s, s)] ∧
      (scaleRun s s s).2.logs.filter (fun l => l.1 == ("warning")) = []) := by
  refine ⟨⟨rfl, rfl⟩, ?_, ?_, ?_⟩
  · intro sx sy sz hne
    have hor : ¬ sx = sy ∨ ¬ sy = sz := not_and_or.mp hne
    simp [scaleRun, process_annotation_model, download_model, import_model,
      setActiveLayer, filterByType, linkSelected, store_annot, envFetchAll,
      modelSource, scaleWrap, scaleAnnotData, pageState, gltfStub,
      PyM.bind_apply, PyM.pure_apply, PyM.tryCatch, JVal.get, JVal.index,
      JVal.hasKey, JVal.iter, JVal.lookup, JVal.truthy, JVal.expectStr,
      force_as_singleton, force_as_list, force_as_object, axes_named_values,
      pyFloat, jEqStr, logE, logAll, report, PyM.getS, PyM.modifyS, PyM.throw,
      PyM.ofExcept, setPropOn, getPropOn, osBasename, osBasename.go,
      osExtension, osExtension.go, osJoin, strLower, asciiLowerChar,
      freshName, numSuffix, BState.withColl, BState.withObj, BState.findColl,
      BState.findObj, objRef, objLocation, addV3, PropVal.setIn,
      PropVal.getIn, iiif_position_to_blender_vectorQ,
      model_transform_angles_to_blender_eulerQ, ite_apply, hor]
  · intro s hs
    simp [scaleRun, process_annotation_model, download_model, import_model,
      setActiveLayer, filterByType, linkSelected, store_annot, envFetchAll,
      modelSource, scaleWrap, scaleAnnotData, pageState, gltfStub,
      PyM.bind_apply, PyM.pure_apply, PyM.tryCatch, JVal.get, JVal.index,
      JVal.hasKey, JVal.iter, JVal.lookup, JVal.truthy, JVal.expectStr,
      force_as_singleton, force_as_list, force_as_object, axes_named_values,
      pyFloat, jEqStr, logE, logAll, report, PyM.getS, PyM.modifyS, PyM.throw,
      PyM.ofExcept, setPropOn, getPropOn, osBasename, osBasename.go,
      osExtension, osExtension.go, osJoin, strLower, asciiLowerChar,
      freshName, numSuffix, BState.withColl, BState.withObj, BState.findColl,
      BState.findObj, objRef, objLocation, addV3, PropVal.setIn,
      PropVal.getIn, iiif_position_to_blender_vectorQ,
      model_transform_angles_to_blender_eulerQ, ite_apply, hs]
  · intro s hs
    have hns : ¬ (s ≤ 0) := not_le.mpr hs
    simp [scaleRun, process_annotation_model, download_model, import_model,
      setActiveLayer, filterByType, linkSelected, store_annot, envFetchAll,
      modelSource, scaleWrap, scaleAnnotData, pageState, gltfStub,
      PyM.bind_apply, PyM.pure_apply, PyM.tryCatch, JVal.get, JVal.index,
      JVal.hasKey, JVal.iter, JVal.lookup, JVal.truthy, JVal.expectStr,
      force_as_singleton, force_as_list, force_as_object, axes_named_values,
      pyFloat, jEqStr, logE, logAll, report, PyM.getS, PyM.modifyS, PyM.throw,
      PyM.ofExcept, setPropOn, getPropOn, osBasename, osBasename.go,
      osExtension, osExtension.go, osJoin, strLower, asciiLowerChar,
      freshName, numSuffix, BState.withColl, BState.withObj, BState.findColl,
      BState.findObj, objRef, objLocation, addV3, PropVal.setIn,
      PropVal.getIn, iiif_position_to_blender_vectorQ,
      model_transform_angles_to_blender_eulerQ, ite_apply, hns]

set_option maxHeartbeats 400000 in
/-- Closed witness for `scale_transform_handling` at the scale triples
(2,3,2), (-1,-1,-1) and (2,2,2). -/
theorem scale_transform_handling_witness :
    (¬ ((2:ℚ) = 3 ∧ (3:ℚ) = 2)) ∧
    ((scaleRun 2 3 2).2.objs.map (fun o => o.scale)) = [(1, 1, 1)] ∧
    ((-1:ℚ) ≤ 0) ∧
    ((scaleRun (-1) (-1) (-1)).2.objs.map (fun o => o.scale)) = [(1, 1, 1)] ∧
    ((0:ℚ) < 2) ∧
    ((scaleRun 2 2 2).2.objs.map (fun o => o.scale)) = [(2, 2, 2)] := by
  refine ⟨by norm_num, ?_, by norm_num, ?_, by norm_num, ?_⟩
  · exact (scale_transform_handling.2.1 2 3 2 (by norm_num)).1
  · exact (scale_transform_handling.2.2.1 (-1) (by norm_num)).1
  · exact (scale_transform_handling.2.2.2 2 (by norm_num)).1

/-! ## Exporter (src/modules/exporter.py)

The exporter reads back object transforms and stored provenance and
rebuilds manifest JSON.  JSON numbers live in `Sc` because
`blender_rotation_to_camera_transform_angles` applies `math.degrees` to
raw quaternion components.  The mathutils conversions are again
external parameters. -/

/-- External mathutils conversions over the exact rational
representation. -/
structure MathUtilsQ where
  eulerToQuat : EulerQ → QuatQ
  quatToEuler : QuatQ → String → EulerQ

/-- A rotation value over the rational representation. -/
inductive BRotQ where
  | euler (e : EulerQ)
  | quat (q : QuatQ)

/-- Coordinates.coerce_to_euler over the rational representation. -/
def coerce_to_eulerQ (mu : MathUtilsQ) (rotation : BRotQ) (order : String) :
    EulerQ :=
  match rotation with
  | .euler e => if e.order ≠ order then mu.quatToEuler (mu.eulerToQuat e) order else e
  | .quat q => mu.quatToEuler q order

/-- Coordinates.blender_rotation_to_model_transform_angles over the
rational representation: reads the coerced "YZX" Euler. -/
def blender_rotation_to_model_transform_anglesQ (mu : MathUtilsQ)
    (rotation : BRotQ) : ℚ × ℚ × ℚ :=
  let euler_rotation := coerce_to_eulerQ mu rotation ("YZX")
  (degreesQ euler_rotation.x, degreesQ euler_rotation.z,
   degreesQ euler_rotation.y.neg)

/-- Duck-typed `math.degrees(rotation.x)`: for an Euler the stored
angle is an exact rational number of degrees; for a Quaternion the raw
rational component is scaled by `180/π`. -/
def BRotQ.degX : BRotQ → Sc
  | .euler e => Sc.ofQ (degreesQ e.x)
  | .quat q => Sc.degRaw q.x

/-- Duck-typed `math.degrees(rotation.y)`. -/
def BRotQ.degY : BRotQ → Sc
  | .euler e => Sc.ofQ (degreesQ e.y)
  | .quat q => Sc.degRaw q.y

/-- Duck-typed `math.degrees(rotation.z)`. -/
def BRotQ.degZ : BRotQ → Sc
  | .euler e => Sc.ofQ (degreesQ e.z)
  | .quat q => Sc.degRaw q.z

/-- Coordinates.blender_rotation_to_camera_transform_angles over the
rational representation: the coerced Euler is bound but unused and the
components are read from the raw input, exactly as in the source. -/
def blender_rotation_to_camera_transform_anglesQ (mu : MathUtilsQ)
    (rotation : BRotQ) : Sc × Sc × Sc :=
  let _euler_rotation := coerce_to_eulerQ mu rotation ("ZYX")
  (Sc.sub rotation.degX (Sc.ofQ 90), rotation.degY, rotation.degZ)

/-- External capabilities of the export operator. -/
structure ExportEnv where
  mu : MathUtilsQ

/-- Lift a rational triple into exporter JSON numbers. -/
def scOfQ3 (v : ℚ × ℚ × ℚ) : Sc × Sc × Sc :=
  (Sc.ofQ v.1, Sc.ofQ v.2.1, Sc.ofQ v.2.2)

/-- Modelled from the spec: `create_axes_named_values` is imported from
`utils.json_patterns` in exporter.py but missing from the provided
sources.  Per the spec (§3, §4.4), transforms and PointSelectors are
emitted as objects carrying a `type` and axis-named `x`, `y`, `z`
number properties. -/
def create_axes_named_values (ty : String) (v : Sc × Sc × Sc) : JS :=
  .obj [(("type"), .str ty), (("x"), .num v.1), (("y"), .num v.2.1),
        (("z"), .num v.2.2)]

/-- Modelled from the spec: `get_source_resource` is imported from
`utils.json_patterns` in exporter.py but missing from the provided
sources.  Per the spec (§4.4, unwrap one SpecificResource level to
obtain the source), a SpecificResource yields its `source` resource
(strings coerced to objects by id, §4.1) and any other resource is
returned unchanged. -/
def get_source_resource (v : JS) : JS :=
  match v with
  | .obj fs =>
      if jEqStr ((JVal.lookup fs ("type")).getD .null) ("SpecificResource") then
        match JVal.lookup fs ("source") with
        | some (.obj gs) => .obj gs
        | some (.str s) => .obj [(("id"), .str s)]
        | some w => w
        | none => .null
      else .obj fs
  | .str s => .obj [(("id"), .str s)]
  | w => w

/-- A custom-property value as the Python value `owner.get(key)` with a
default (stored strings and raw JSON values read back directly; the
embedded flows never read a serialized dump where a plain value is
expected). -/
def propAsJS (p : Option (PropVal Sc)) (dflt : JS) : PyM (BState Sc) JS :=
  match p with
  | none => pure dflt
  | some (.str s) => pure (.str s)
  | some (.raw v) => pure v
  | some (.jsonDump _) => PyM.throw (.typeError ("serialized property read"))

/-- Python truthiness of a custom-property value. -/
def propTruthy : Option (PropVal Sc) → Bool
  | none => false
  | some (.str s) => s ≠ ""
  | some (.raw v) => JVal.truthy v
  | some (.jsonDump _) => true

/-- Python `v.pop(key, None)` (dicts only; others raise
`AttributeError`). -/
def popKeyM (v : JS) (key : String) : PyM (BState Sc) JS :=
  match v with
  | .obj fs => pure (.obj (JVal.dropField fs key))
  | _ => PyM.throw (.attributeError ("pop"))

/-- ExportIIIF3DManifest.new_camera_annotation. -/
def new_camera_annot' (camName : String) : PyM (BState Sc) JS := do
  let camera_data : JS :=
    .obj [(("id"), .str ("https://example.org/iiif/3d/camera_" ++ camName)),
          (("type"), .str ("PerspectiveCamera"))]
  let annot0 : JS :=
    .obj [(("id"), .str ("https://example.org/iiif/3d/anno_" ++ camName)),
          (("type"), .str ("Annotation")),
          (("motivation"), .arr [.str ("painting")])]
  let annot1 ← annot0.setKey ("target")
    (.obj [(("id"), .str ("https://example.org/iiif/scene1/page/p1/1")),
           (("type"), .str ("Scene"))])
  annot1.setKey ("body") camera_data

/-- ExportIIIF3DManifest.new_model_annotation.  The final statement of
the source assigns the undefined name `camera_data`
(`annotation_data["body"] = camera_data`), so this function always
raises `NameError` after building its intermediate dictionaries. -/
def new_model_annot' (modelName : String) : PyM (BState Sc) JS := do
  let mid ← getPropOn (.obj modelName) ("iiif_id")
  let model_id ← propAsJS mid (.str ("https://example.com/model_id_unknown"))
  let mfmt ← getPropOn (.obj modelName) ("iiif_format")
  let model_format ← propAsJS mfmt (.str ("application/binary"))
  let _model_data : JS :=
    .obj [(("id"), model_id), (("type"), .str ("Model")),
          (("format"), model_format)]
  let annot0 : JS :=
    .obj [(("id"), .str ("https://example.org/iiif/3d/anno_" ++ modelName)),
          (("type"), .str ("Annotation")),
          (("motivation"), .arr [.str ("painting")])]
  let _annot1 ← annot0.setKey ("target")
    (.obj [(("id"), .str ("https://example.org/iiif/scene1/page/p1/1")),
           (("type"), .str ("Scene"))])
  PyM.throw (.nameError ("camera_data"))

/-- Look up an object or raise. -/
def findObjM (n : String) : PyM (BState Sc) (BObject Sc) := do
  let st ← PyM.getS
  match st.findObj n with
  | some ob => pure ob
  | none => PyM.throw (.attributeError ("object missing"))

/-- ExportIIIF3DManifest.get_light_annotation.  The branches that call
`rgba_to_hex` raise `NameError`: exporter.py imports only `hex_to_rgba`
from utils.color. -/
def get_light_annot' (name : String) : PyM (BState Sc) JS := do
  let ob ← findObjM name
  let aidP ← getPropOn (.obj name) ("original_annotation_id")
  let annotation_id ← propAsJS aidP (.str ("https://example.org/iiif/3d/light_" ++ name))
  let bidP ← getPropOn (.obj name) ("original_body_id")
  let body_id ← propAsJS bidP (.str ("https://example.org/iiif/3d/lights/" ++ name))
  let light_type : String :=
    if ob.lightType == ("SUN") then ("DirectionalLight") else ("AmbientLight")
  let annot0 : JS :=
    .obj [(("id"), annotation_id), (("type"), .str ("Annotation")),
          (("motivation"), .arr [.str ("painting")]),
          (("body"), .obj [(("id"), body_id), (("type"), .str light_type),
                           (("label"), .obj [(("en"), .arr [.str name])])])]
  let colP ← getPropOn (.obj name) ("original_color")
  let annot1 ←
    (if propTruthy colP then PyM.throw (.nameError ("rgba_to_hex"))
     else pure annot0)
  let intP ← getPropOn (.obj name) ("original_intensity")
  let annot2 ←
    (if propTruthy intP then
        match intP with
        | some (.jsonDump v) => do
            let b ← annot1.index ("body")
            let b1 ← b.setKey ("intensity") v
            annot1.setKey ("body") b1
        | some (.str _) => do
            report ("WARNING") (.couldNotDecode ("intensity") name)
            pure annot1
        | _ => PyM.throw (.typeError ("json.loads expects str"))
      else pure annot1)
  let laP ← getPropOn (.obj name) ("original_lookAt")
  let annot3 ←
    (if propTruthy laP then
        match laP with
        | some (.jsonDump v) => do
            let b ← annot2.index ("body")
            let b1 ← b.setKey ("lookAt") v
            annot2.setKey ("body") b1
        | some (.str _) => do
            report ("WARNING") (.couldNotDecode ("lookAt") name)
            pure annot2
        | _ => PyM.throw (.typeError ("json.loads expects str"))
      else pure annot2)
  let tgP ← getPropOn (.obj name) ("original_target")
  (if propTruthy tgP then
      match tgP with
      | some (.jsonDump v) => annot3.setKey ("target") v
      | some (.str _) => do
          report ("WARNING") (.couldNotDecode ("target") name)
          pure annot3
      | _ => PyM.throw (.typeError ("json.loads expects str"))
    else pure annot3)

/-- ExportIIIF3DManifest.get_camera_annotation: always wraps the body
in a SpecificResource carrying one RotateTransform and always emits a
SpecificResource target with a PointSelector, whatever the camera's
transform values are. -/
def get_camera_annot' (env : ExportEnv) (name scene_collection : String) :
    PyM (BState Sc) JS := do
  let a0 ← get_annot (.obj name)
  let annot_data ←
    (match a0 with
      | none => new_camera_annot' name
      | some a => pure a)
  let ob ← findObjM name
  let saved_mode := ob.rotation_mode
  PyM.modifyS (fun st => st.withObj name (fun o =>
    { o with rotation_mode := ("QUATERNION") }))
  let quat := ob.rotation_quaternion
  PyM.modifyS (fun st => st.withObj name (fun o =>
    { o with rotation_mode := saved_mode }))
  let vec := ob.location
  let iiif_rotation := blender_rotation_to_camera_transform_anglesQ env.mu (.quat quat)
  let iiif_position := blender_vector_to_iiif_positionQ vec
  logE ("info") (.iiifPositionRotation)
  let tRaw ← annot_data.get ("target") .null
  let (tS, w1) := force_as_singleton tRaw
  logAll ("warning") w1
  let target ← PyM.ofExcept (force_as_object tS none)
  let target_source0 := get_source_resource target
  let sidP ← getPropOn (.coll scene_collection) ("iiif_id")
  let sid ← propAsJS sidP (.str ("https://example.com/not_available"))
  let target_source ← target_source0.setKey ("id") sid
  let bRaw ← annot_data.get ("body") .null
  let (body, w2) := force_as_singleton bRaw
  logAll ("warning") w2
  let iiif_camera0 := get_source_resource body
  let iiif_camera1 ← popKeyM iiif_camera0 ("lookAt")
  let blender_y_angle := ob.angle_y
  logE ("info") (.blenderFov)
  let iiif_camera ← iiif_camera1.setKey ("fieldOfView")
    (.num (Sc.ofQ (degreesQ blender_y_angle)))
  let annot1 ← annot_data.setKey ("body")
    (.obj [(("type"), .str ("SpecificResource")),
           (("source"), iiif_camera),
           (("transform"),
            .arr [create_axes_named_values ("RotateTransform") iiif_rotation])])
  annot1.setKey ("target")
    (.obj [(("type"), .str ("SpecificResource")),
           (("source"), target_source),
           (("selector"),
            create_axes_named_values ("PointSelector") (scOfQ3 iiif_position))])

/-- ExportIIIF3DManifest.get_model_annotation (the second, effective
definition): omits the PointSelector when the recomputed position is
exactly the origin, omits Scale/RotateTransform when they recompute to
(1,1,1) resp. (0,0,0), and leaves the body bare when no transform
remains. -/
def get_model_annot' (env : ExportEnv) (name scene_collection : String) :
    PyM (BState Sc) JS := do
  let a0 ← get_annot (.obj name)
  let annot_data ←
    (match a0 with
      | none => new_model_annot' name
      | some a => pure a)
  let ob ← findObjM name
  let saved_mode := ob.rotation_mode
  PyM.modifyS (fun st => st.withObj name (fun o =>
    { o with rotation_mode := ("QUATERNION") }))
  let quat := ob.rotation_quaternion
  PyM.modifyS (fun st => st.withObj name (fun o =>
    { o with rotation_mode := saved_mode }))
  let vec := ob.location
  let scale_vector := ob.scale
  let iiif_rotation := blender_rotation_to_model_transform_anglesQ env.mu (.quat quat)
  let iiif_position := blender_vector_to_iiif_positionQ vec
  logE ("info") (.iiifPositionRotation)
  let tRaw ← annot_data.get ("target") .null
  let (tS, w1) := force_as_singleton tRaw
  logAll ("warning") w1
  let target ← PyM.ofExcept (force_as_object tS none)
  let target_source0 := get_source_resource target
  let sidP ← getPropOn (.coll scene_collection) ("iiif_id")
  let sid ← propAsJS sidP (.str ("https://example.com/not_available"))
  let target_source ← target_source0.setKey ("id") sid
  let new_target : JS :=
    if iiif_position == (0, 0, 0) then target_source
    else
      .obj [(("type"), .str ("SpecificResource")),
            (("source"), target_source),
            (("selector"),
             create_axes_named_values ("PointSelector") (scOfQ3 iiif_position))]
  let annot1 ← annot_data.setKey ("target") new_target
  let bRaw ← annot1.get ("body") .null
  let (body, w2) := force_as_singleton bRaw
  logAll ("warning") w2
  let iiif_model := get_source_resource body
  let iiif_transforms : List JS :=
    (if scale_vector != (1, 1, 1) then
       [create_axes_named_values ("ScaleTransform") (scOfQ3 scale_vector)]
     else []) ++
    (if iiif_rotation != (0, 0, 0) then
       [create_axes_named_values ("RotateTransform") (scOfQ3 iiif_rotation)]
     else [])
  let new_body : JS :=
    if iiif_transforms.length == 0 then iiif_model
    else
      .obj [(("type"), .str ("SpecificResource")),
            (("source"), iiif_model),
            (("transform"), .arr iiif_transforms)]
  annot1.setKey ("body") new_body

/-- Loop body accumulating annotations for the objects of one
collection (the object branch of get_annotation_page's
process_collection). -/
def objAnnots (env : ExportEnv) (scene_collection : String) :
    List String → PyM (BState Sc) (List JS)
  | [] => pure []
  | n :: rest => do
      let ob ← findObjM n
      let here ←
        (if ob.objType == ("MESH") then do
            let a ← get_model_annot' env n scene_collection
            pure (if JVal.truthy a then [a] else [])
          else if ob.objType == ("LIGHT") then do
            let a ← get_light_annot' n
            pure [a]
          else if ob.objType == ("CAMERA") then do
            let a ← get_camera_annot' env n scene_collection
            pure (if JVal.truthy a then [a] else [])
          else pure [])
      let more ← objAnnots env scene_collection rest
      pure (here ++ more)

/-- Sequential traversal of child collections. -/
def forEachChild (f : String → PyM (BState Sc) (List JS)) :
    List String → PyM (BState Sc) (List JS)
  | [] => pure []
  | k :: rest => do
      let a ← f k
      let b ← forEachChild f rest
      pure (a ++ b)

/-- The recursive process_collection of get_annotation_page: this
collection's objects first, then the children.  The fuel only bounds
the recursion depth; Blender collection containment is acyclic, so a
fuel exceeding the number of collections is never exhausted. -/
def process_collection (env : ExportEnv) (scene_collection : String) :
    ℕ → String → PyM (BState Sc) (List JS)
  | 0, _ => pure []
  | fuel + 1, colName => do
      let st ← PyM.getS
      match st.findColl colName with
      | none => PyM.throw (.attributeError ("collection missing"))
      | some c => do
          let fromObjs ← objAnnots env scene_collection c.objs
          let fromKids ← forEachChild (process_collection env scene_collection fuel) c.children
          pure (fromObjs ++ fromKids)

/-- The existing-AnnotationPage filter of get_annotation_page. -/
def pagesOf : List JS → PyM (BState Sc) (List JS)
  | [] => pure []
  | item :: rest => do
      let t ← item.get ("type") .null
      let tail ← pagesOf rest
      pure (if jEqStr t ("AnnotationPage") then item :: tail else tail)

/-- ExportIIIF3DManifest.get_annotation_page. -/
def get_annotation_page (env : ExportEnv) (scene_data : JS)
    (scene_collection : String) : PyM (BState Sc) JS := do
  let itemsV ← scene_data.get ("items") (.arr [])
  let items ← itemsV.iter
  let existing_pages ← pagesOf items
  let page_id ←
    (match existing_pages with
      | p :: _ => p.get ("id") .null
      | [] => do
          let idv ← scene_data.index ("id")
          let s ← idv.expectStr
          pure (JVal.str (s ++ ("/annotations"))))
  let st ← PyM.getS
  let annos ← process_collection env scene_collection
    (st.collections.length + 1) scene_collection
  pure (.obj [(("id"), page_id), (("type"), .str ("AnnotationPage")),
              (("items"), .arr annos)])

/-- Replace the first item of type AnnotationPage (case-insensitive),
reporting whether one was found; `item.get('type').lower()` raises
`AttributeError` on items without a string type. -/
def replaceFirstPage (page : JS) : List JS → PyM (BState Sc) (List JS × Bool)
  | [] => pure ([], false)
  | item :: rest => do
      let t ← item.get ("type") .null
      match t with
      | .str s =>
          if strLower s == strLower ("AnnotationPage") then
            pure (page :: rest, true)
          else do
            let (r, f) ← replaceFirstPage page rest
            pure (item :: r, f)
      | _ => PyM.throw (.attributeError ("lower"))

/-- ExportIIIF3DManifest.get_scene_data. -/
def get_scene_data (env : ExportEnv) (collName : String) :
    PyM (BState Sc) (Option JS) := do
  let itP ← getPropOn (.coll collName) ("iiif_type")
  let iiif_type ←
    (match itP with
      | some (.str s) => pure s
      | some (.raw (.str s)) => pure s
      | none => PyM.throw (.attributeError ("NoneType has no lower"))
      | some _ => PyM.throw (.attributeError ("lower")))
  if strLower iiif_type == strLower ("Scene") then do
    let sidP ← getPropOn (.coll collName) ("iiif_id")
    if !(propTruthy sidP) then
      logE ("warning") (.invalidSceneId (sidP.map (fun _ => JVal.null)))
    else
      logE ("info") (.creatingSceneJson .null)
  else
    logE ("warning") (.invalidCollection none)
  let scene_data0 ← get_scene (.coll collName)
  match scene_data0 with
  | some sd =>
      if JVal.truthy sd then do
        let hasBg ← sd.hasKey ("backgroundColor")
        let st ← PyM.getS
        if hasBg && (match st.world with
                      | some w => w.use_nodes
                      | none => false) then
          PyM.throw (.nameError ("rgba_to_hex"))
        let annotation_page ← get_annotation_page env sd collName
        let hasItems ← sd.hasKey ("items")
        let sd1 ← (if hasItems then pure sd else sd.setKey ("items") (.arr []))
        let itemsV ← sd1.index ("items")
        let items ← itemsV.iter
        let (items1, found) ← replaceFirstPage annotation_page items
        let items2 := if found then items1 else items1 ++ [annotation_page]
        let sd2 ← sd1.setKey ("items") (.arr items2)
        pure (some sd2)
      else pure none
  | none => pure none

/-- The fallback manifest built by get_manifest_data from the
registered scene string properties. -/
def fallbackManifest (st : BState Sc) : JS :=
  .obj [(("@context"), .str ("http://iiif.io/api/presentation/4/context.json")),
        (("id"), .str (getSceneProp st ("iiif_manifest_id"))),
        (("type"), .str ("Manifest")),
        (("label"), .obj [(("en"), .arr [.str (getSceneProp st ("iiif_manifest_label"))])]),
        (("summary"), .obj [(("en"), .arr [.str (getSceneProp st ("iiif_manifest_summary"))])]),
        (("items"), .arr [])]

/-- The merge step of get_manifest_data for a stored manifest found on
a collection: overlay on the fallback, clear items, and force the
id/label/summary from the scene properties. -/
def mergeManifest (st : BState Sc) (m : JS) : PyM (BState Sc) JS := do
  let ffs ← (match fallbackManifest st with
    | .obj fs => pure fs
    | _ => PyM.throw (.typeError ("mapping unpack")))
  let mfs ← (match m with
    | .obj fs => pure fs
    | _ => PyM.throw (.typeError ("mapping unpack")))
  let merged := JVal.merge ffs mfs
  let m1 := JVal.setField merged ("items") (.arr [])
  let m2 := JVal.setField m1 ("id") (.str (getSceneProp st ("iiif_manifest_id")))
  let lbl ← (match JVal.lookup m2 ("label") with
    | some (.obj lfs) => pure lfs
    | some _ => PyM.throw (.typeError ("mapping unpack"))
    | none => PyM.throw (.keyError ("label")))
  let m3 := JVal.setField m2 ("label")
    (.obj (JVal.setField lbl ("en")
      (.arr [.str (getSceneProp st ("iiif_manifest_label"))])))
  let smry ← (match JVal.lookup m3 ("summary") with
    | some (.obj sfs) => pure sfs
    | some _ => PyM.throw (.typeError ("mapping unpack"))
    | none => PyM.throw (.keyError ("summary")))
  let m4 := JVal.setField m3 ("summary")
    (.obj (JVal.setField smry ("en")
      (.arr [.str (getSceneProp st ("iiif_manifest_summary"))])))
  pure (.obj m4)

/-- The collection scan of get_manifest_data: the first collection with
stored manifest metadata wins. -/
def manifestScan (st : BState Sc) : List String → PyM (BState Sc) JS
  | [] => pure (fallbackManifest st)
  | c :: rest => do
      let md ← get_manifest (.coll c)
      match md with
      | some m =>
          if JVal.truthy m then mergeManifest st m
          else manifestScan st rest
      | none => manifestScan st rest

/-- ExportIIIF3DManifest.get_manifest_data. -/
def get_manifest_data : PyM (BState Sc) JS := do
  let st ← PyM.getS
  manifestScan st (st.collections.map (fun c => c.name))

/-- The per-collection loop of the exporter's execute, accumulating
scene JSON into the manifest items.  Every collection's `iiif_type`
property is lowercased unconditionally, so a collection without the
property raises `AttributeError`. -/
def exportScenes (env : ExportEnv) (manifest_data : JS) :
    List String → PyM (BState Sc) JS
  | [] => pure manifest_data
  | c :: rest => do
      let itP ← getPropOn (.coll c) ("iiif_type")
      let iiif_type ←
        (match itP with
          | some (.str s) => pure s
          | some (.raw (.str s)) => pure s
          | none => PyM.throw (.attributeError ("NoneType has no lower"))
          | some _ => PyM.throw (.attributeError ("lower")))
      if strLower iiif_type == strLower ("Scene") then do
        let sd ← get_scene_data env c
        match sd with
        | some scene_data =>
            if JVal.truthy scene_data then do
              let itemsV ← manifest_data.index ("items")
              let items ← itemsV.iter
              let m1 ← manifest_data.setKey ("items") (.arr (items ++ [scene_data]))
              exportScenes env m1 rest
            else exportScenes env manifest_data rest
        | none => exportScenes env manifest_data rest
      else exportScenes env manifest_data rest

/-- ExportIIIF3DManifest.execute: builds the manifest JSON, appends the
Scene collections' data, writes the file and returns FINISHED.  There
is no try/except here: any exception raised while building an
annotation propagates and the file is never written. -/
def exporter_execute (env : ExportEnv) (filepath : String) :
    PyM (BState Sc) OpResult := do
  let manifest_data ← get_manifest_data
  let st ← PyM.getS
  let final ← exportScenes env manifest_data (st.collections.map (fun c => c.name))
  PyM.modifyS (fun st2 => { st2 with written := some (filepath, final) })
  pure OpResult.FINISHED

/-! ## Claims C6 and C7 -/

/-- A trivial mathutils instantiation for runs that never reach a
conversion. -/
def muStub : MathUtilsQ := ⟨fun _ => ⟨1, 0, 0, 0⟩, fun _ o => ⟨⟨0⟩, ⟨0⟩, ⟨0⟩, o⟩⟩

/-- Stored scene JSON of the export fixtures. -/
def sceneJsonFx : JS :=
  .obj [(("id"), .str ("https://ex/s1")), (("type"), .str ("Scene"))]

/-- The Scene collection of the export fixtures (name, iiif metadata,
contained object names). -/
def sceneCollFx (objNames : List String) : BCollection Sc :=
  { name := ("SceneCol"), objs := objNames,
    props := [(("iiif_type"), .str ("Scene")),
              (("iiif_id"), .raw (.str ("https://ex/s1"))),
              (("iiif_scene"), .jsonDump sceneJsonFx)] }

/-- C6 fixture state: a Scene collection containing one mesh object
that carries no stored `iiif_annotation` provenance, with arbitrary
transform values. -/
def stMeshNoProv (loc scale : ℚ × ℚ × ℚ) (quat : QuatQ) : BState Sc :=
  { collections := [sceneCollFx [("Cube")]],
    objs := [{ name := ("Cube"), objType := ("MESH"), location := loc,
               scale := scale, rotation_quaternion := quat }] }

/-- C6 counterexample: exporting a scene whose mesh has no stored
annotation metadata routes to the fallback builder, whose body
references the undefined name `camera_data`; the resulting `NameError`
propagates out of `execute` (which has no handler) and the manifest
file is never written. -/
theorem export_fallback_annotation_raises :
    (exporter_execute ⟨muStub⟩ ("/out.json")).res
      (stMeshNoProv (1, 2, 3) (2, 2, 2) ⟨1, 0, 0, 0⟩) =
      Except.error (.nameError ("camera_data")) ∧
    ((exporter_execute ⟨muStub⟩ ("/out.json")).fin
      (stMeshNoProv (1, 2, 3) (2, 2, 2) ⟨1, 0, 0, 0⟩)).written = none := by
  exact ⟨rfl, rfl⟩

/-- C6 (amended): a failure while building a single annotation is not
absorbed: for every environment and every transform of the
provenance-less mesh, the export run raises `NameError('camera_data')`
and no manifest file is written — the top-level export call aborts. -/
theorem export_fallback_annotation_aborts (env : ExportEnv)
    (loc scale : ℚ × ℚ × ℚ) (quat : QuatQ) :
    (exporter_execute env ("/out.json")).res (stMeshNoProv loc scale quat) =
      Except.error (.nameError ("camera_data")) ∧
    ((exporter_execute env ("/out.json")).fin
      (stMeshNoProv loc scale quat)).written = none := by
  constructor <;>
    simp [exporter_execute, get_manifest_data, manifestScan, fallbackManifest,
      get_manifest, loadsProp, getPropOn, getSceneProp, exportScenes,
      get_scene_data, get_scene, get_annotation_page, process_collection,
      objAnnots, forEachChild, pagesOf, replaceFirstPage, get_model_annot',
      new_model_annot', get_annot, findObjM, propAsJS, propTruthy,
      stMeshNoProv, sceneCollFx, sceneJsonFx, strLower, asciiLowerChar,
      PyM.bind_apply, PyM.pure_apply, PyM.getS, PyM.modifyS, PyM.throw,
      PyM.ofExcept, PyM.res, PyM.fin, JVal.get, JVal.index, JVal.hasKey,
      JVal.iter, JVal.lookup, JVal.truthy, JVal.expectStr, JVal.setKey,
      JVal.setField, force_as_singleton, force_as_object, jEqStr, logE,
      logAll, report, PropVal.getIn, BState.findColl, BState.findObj,
      BState.withObj, BState.withColl, ite_apply]

/-- Project a field out of a JSON object (null when absent or not an
object). -/
def jField (v : JS) (k : String) : JS :=
  match v with
  | .obj fs => (JVal.lookup fs k).getD .null
  | _ => .null

/-- Does a target value carry a `selector` (the PointSelector slot)? -/
def hasSelector (t : JS) : Bool :=
  match t with
  | .obj fs => (JVal.lookup fs ("selector")).isSome
  | _ => false

/-- Is a value a SpecificResource wrapper? -/
def isSpecificResource (v : JS) : Bool :=
  jEqStr (jField v ("type")) ("SpecificResource")

/-- Does a body carry a transform of the given type? -/
def hasTransformType (b : JS) (ty : String) : Bool :=
  match jField b ("transform") with
  | .arr ts => ts.any (fun t => jEqStr (jField t ("type")) ty)
  | _ => false

/-- The payload of a successful run (null on error). -/
def okVal : Except PyErr JS → JS
  | .ok v => v
  | .error _ => .null

/-- Stored provenance annotation of the model-export fixture. -/
def modelAnnotJson : JS :=
  .obj [(("id"), .str ("a1")), (("type"), .str ("Annotation")),
        (("body"), .obj [(("id"), .str ("https://x/m.glb")),
                         (("type"), .str ("Model"))]),
        (("target"), .str ("https://ex/s1"))]

/-- Model-export fixture state: one mesh with stored provenance and
arbitrary transform values. -/
def stModelProv (loc scale : ℚ × ℚ × ℚ) (quat : QuatQ) : BState Sc :=
  { collections := [sceneCollFx [("Body")]],
    objs := [{ name := ("Body"), objType := ("MESH"), location := loc,
               scale := scale, rotation_quaternion := quat,
               props := [(("iiif_annotation"), .jsonDump modelAnnotJson)] }] }

/-- The annotation produced for the model fixture. -/
def modelExportResult (mu : MathUtilsQ) (loc scale : ℚ × ℚ × ℚ)
    (quat : QuatQ) : JS :=
  okVal ((get_model_annot' ⟨mu⟩ ("Body") ("SceneCol")).res
    (stModelProv loc scale quat))

/-- Stored provenance annotation of the camera-export fixture. -/
def camAnnotJson : JS :=
  .obj [(("id"), .str ("a2")), (("type"), .str ("Annotation")),
        (("body"), .obj [(("id"), .str ("https://x/cam1")),
                         (("type"), .str ("PerspectiveCamera"))]),
        (("target"), .str ("https://ex/s1"))]

/-- Camera-export fixture state. -/
def stCamProv (loc : ℚ × ℚ × ℚ) (quat : QuatQ) : BState Sc :=
  { collections := [sceneCollFx [("Cam")]],
    objs := [{ name := ("Cam"), objType := ("CAMERA"), location := loc,
               rotation_quaternion := quat, angle_y := ⟨40⟩,
               props := [(("iiif_annotation"), .jsonDump camAnnotJson)] }] }

/-- The annotation produced for the camera fixture. -/
def camExportResult (mu : MathUtilsQ) (loc : ℚ × ℚ × ℚ) (quat : QuatQ) : JS :=
  okVal ((get_camera_annot' ⟨mu⟩ ("Cam") ("SceneCol")).res (stCamProv loc quat))

/-- C7 counterexample: a camera whose recomputed position is exactly
the origin and whose rotation is the identity quaternion still gets a
SpecificResource target with a PointSelector and a body wrapped with a
RotateTransform — the omission rules do not hold "model and camera
alike". -/
theorem camera_export_never_omits :
    hasSelector (jField (camExportResult muStub (0, 0, 0) ⟨1, 0, 0, 0⟩)
      ("target")) = true ∧
    isSpecificResource (jField (camExportResult muStub (0, 0, 0) ⟨1, 0, 0, 0⟩)
      ("target")) = true ∧
    hasTransformType (jField (camExportResult muStub (0, 0, 0) ⟨1, 0, 0, 0⟩)
      ("body")) ("RotateTransform") = true ∧
    blender_vector_to_iiif_positionQ (0, 0, 0) = (0, 0, 0) := by
  exact ⟨rfl, rfl, rfl, rfl⟩

set_option maxHeartbeats 1000000 in
set_option maxRecDepth 8192 in
/-- C7 (amended): the omission rules hold for exported model (mesh)
bodies — PointSelector present iff the recomputed manifest position is
not the origin, ScaleTransform present iff the scale is not (1,1,1),
RotateTransform present iff the recomputed rotation triple is not
(0,0,0), and the body is wrapped in a SpecificResource iff some
transform remains — while exported cameras always emit a
SpecificResource target with a PointSelector and a body wrapped with a
RotateTransform, whatever their transform values. -/
theorem export_omission_rules :
    (∀ (mu : MathUtilsQ) (loc scale : ℚ × ℚ × ℚ) (quat : QuatQ),
      (hasSelector (jField (modelExportResult mu loc scale quat) ("target")) = true ↔
        blender_vector_to_iiif_positionQ loc ≠ (0, 0, 0)) ∧
      (isSpecificResource (jField (modelExportResult mu loc scale quat) ("target")) = true ↔
        blender_vector_to_iiif_positionQ loc ≠ (0, 0, 0)) ∧
      (hasTransformType (jField (modelExportResult mu loc scale quat) ("body"))
          ("ScaleTransform") = true ↔ scale ≠ (1, 1, 1)) ∧
      (hasTransformType (jField (modelExportResult mu loc scale quat) ("body"))
          ("RotateTransform") = true ↔
        blender_rotation_to_model_transform_anglesQ mu (.quat quat) ≠ (0, 0, 0)) ∧
      (isSpecificResource (jField (modelExportResult mu loc scale quat) ("body")) = true ↔
        (scale ≠ (1, 1, 1) ∨
          blender_rotation_to_model_transform_anglesQ mu (.quat quat) ≠ (0, 0, 0)))) ∧
    (∀ (mu : MathUtilsQ) (loc : ℚ × ℚ × ℚ) (quat : QuatQ),
      hasSelector (jField (camExportResult mu loc quat) ("target")) = true ∧
      isSpecificResource (jField (camExportResult mu loc quat) ("target")) = true ∧
      hasTransformType (jField (camExportResult mu loc quat) ("body"))
        ("RotateTransform") = true) := by
  constructor
  · intro mu loc scale quat
    by_cases hp : blender_vector_to_iiif_positionQ loc = 0 <;>
    by_cases hs : scale = (1 : ℚ × ℚ × ℚ) <;>
    by_cases hr : blender_rotation_to_model_transform_anglesQ mu (.quat quat) = 0 <;>
      simp [modelExportResult, get_model_annot', get_annot, findObjM,
        new_model_annot', loadsProp, getPropOn, propAsJS, okVal, stModelProv,
        sceneCollFx, sceneJsonFx, modelAnnotJson, get_source_resource,
        create_axes_named_values, scOfQ3, PyM.bind_apply, PyM.pure_apply,
        PyM.getS, PyM.modifyS, PyM.throw, PyM.ofExcept, PyM.res, JVal.get,
        JVal.index, JVal.lookup, JVal.setKey, JVal.setField, JVal.truthy,
        force_as_singleton, force_as_object, jEqStr, logE, logAll,
        PropVal.getIn, BState.findColl, BState.findObj, BState.withObj,
        jField, hasSelector, isSpecificResource, hasTransformType,
        ite_apply, hp, hs, hr]
  · intro mu loc quat
    refine ⟨?_, ?_, ?_⟩ <;>
      simp [camExportResult, get_camera_annot', get_annot, findObjM,
        new_camera_annot', loadsProp, getPropOn, propAsJS, okVal, stCamProv,
        sceneCollFx, sceneJsonFx, camAnnotJson, get_source_resource,
        create_axes_named_values, scOfQ3, popKeyM, PyM.bind_apply,
        PyM.pure_apply, PyM.getS, PyM.modifyS, PyM.throw, PyM.ofExcept,
        PyM.res, JVal.get, JVal.index, JVal.lookup, JVal.setKey,
        JVal.setField, JVal.dropField, JVal.truthy, force_as_singleton,
        force_as_object, jEqStr, logE, logAll, PropVal.getIn,
        BState.findColl, BState.findObj, BState.withObj,
        blender_rotation_to_camera_transform_anglesQ, coerce_to_eulerQ,
        jField, hasSelector, isSpecificResource, hasTransformType, ite_apply]
